import Mathlib

/-!
# NDAttribute: a typed attribute value container

A shallow embedding of `ADApp/ADSrc/NDAttribute.h` and `NDAttribute.cpp`.

Modelling conventions

* Enumerations (`NDAttrDataType_t`, `NDAttrSource_t`) are their integer values, so that a value
  outside the declared enumerators can be passed, as a C++ cast allows.
* Every member function is a function from the object state to its results and the state
  afterwards; reference and pointer out-parameters are passed in with their previous content and
  handed back.
* Integer scalars are `Int`; `epicsFloat32` and `epicsFloat64` values are their IEEE-754 bit
  patterns.
* A `std::string` is a `String` whose characters stand for its bytes; a `std::vector` is the
  list of its elements.
* A function that dereferences a raw `void *` returns an `Option`; `none` stands for undefined
  behaviour of the C++ abstract machine (the pointer does not point at an object of the type the
  cast assumes, an inactive or uninitialised union member is read, a float does not fit the
  integer it is cast to, `memcpy` reads past the end of the vector).
* `listNode_` (the intrusive list hook) and `report` (diagnostic text) are not modelled.
-/

namespace NDAttr

/-! ## Return codes and enumerations -/

/-- Success return code. -/
def ND_SUCCESS : Int := 0
/-- Failure return code. -/
def ND_ERROR : Int := -1

/-- Enumeration of NDArray data types, by integer value. -/
abbrev NDDataType_t := Int

def NDInt8 : NDDataType_t := 0
def NDUInt8 : NDDataType_t := 1
def NDInt16 : NDDataType_t := 2
def NDUInt16 : NDDataType_t := 3
def NDInt32 : NDDataType_t := 4
def NDUInt32 : NDDataType_t := 5
def NDInt64 : NDDataType_t := 6
def NDUInt64 : NDDataType_t := 7
def NDFloat32 : NDDataType_t := 8
def NDFloat64 : NDDataType_t := 9

/-- Enumeration of NDAttribute attribute data types, by integer value. -/
abbrev NDAttrDataType_t := Int

def NDAttrInt8 : NDAttrDataType_t := NDInt8
def NDAttrUInt8 : NDAttrDataType_t := NDUInt8
def NDAttrInt16 : NDAttrDataType_t := NDInt16
def NDAttrUInt16 : NDAttrDataType_t := NDUInt16
def NDAttrInt32 : NDAttrDataType_t := NDInt32
def NDAttrUInt32 : NDAttrDataType_t := NDUInt32
def NDAttrInt64 : NDAttrDataType_t := NDInt64
def NDAttrUInt64 : NDAttrDataType_t := NDUInt64
def NDAttrFloat32 : NDAttrDataType_t := NDFloat32
def NDAttrFloat64 : NDAttrDataType_t := NDFloat64
def NDAttrString : NDAttrDataType_t := NDAttrFloat64 + 1
def NDAttrVecInt8 : NDAttrDataType_t := NDAttrString + 1
def NDAttrVecUInt8 : NDAttrDataType_t := NDAttrVecInt8 + 1
def NDAttrVecInt16 : NDAttrDataType_t := NDAttrVecUInt8 + 1
def NDAttrVecUInt16 : NDAttrDataType_t := NDAttrVecInt16 + 1
def NDAttrVecInt32 : NDAttrDataType_t := NDAttrVecUInt16 + 1
def NDAttrVecUInt32 : NDAttrDataType_t := NDAttrVecInt32 + 1
def NDAttrVecInt64 : NDAttrDataType_t := NDAttrVecUInt32 + 1
def NDAttrVecUInt64 : NDAttrDataType_t := NDAttrVecInt64 + 1
def NDAttrVecFloat32 : NDAttrDataType_t := NDAttrVecUInt64 + 1
def NDAttrVecFloat64 : NDAttrDataType_t := NDAttrVecFloat32 + 1
def NDAttrUndefined : NDAttrDataType_t := NDAttrVecFloat64 + 1

/-- Enumeration of NDAttribute source types, by integer value. -/
abbrev NDAttrSource_t := Int

def NDAttrSourceDriver : NDAttrSource_t := 0
def NDAttrSourceParam : NDAttrSource_t := 1
def NDAttrSourceEPICSPV : NDAttrSource_t := 2
def NDAttrSourceFunct : NDAttrSource_t := 3
def NDAttrSourceConst : NDAttrSource_t := 4
def NDAttrSourceUndefined : NDAttrSource_t := 5

/-! ## Scalar element types -/

/-- The ten element types `epicsInt8` … `epicsFloat64`; the template argument of `getValueT` and
the element type that selects a `std::vector` overload. -/
inductive epicsType
  | Int8 | UInt8 | Int16 | UInt16 | Int32 | UInt32 | Int64 | UInt64 | Float32 | Float64
  deriving DecidableEq, Repr

namespace epicsType

/-- Width of the type in bits. -/
def bits : epicsType → Nat
  | Int8 => 8 | UInt8 => 8 | Int16 => 16 | UInt16 => 16 | Int32 => 32 | UInt32 => 32
  | Int64 => 64 | UInt64 => 64 | Float32 => 32 | Float64 => 64

/-- The value of `sizeof` for the type, in bytes. -/
def sizeof : epicsType → Nat
  | Int8 => 1 | UInt8 => 1 | Int16 => 2 | UInt16 => 2 | Int32 => 4 | UInt32 => 4
  | Int64 => 8 | UInt64 => 8 | Float32 => 4 | Float64 => 8

def isFloat : epicsType → Bool
  | Float32 => true | Float64 => true | _ => false

def isSigned : epicsType → Bool
  | Int8 => true | Int16 => true | Int32 => true | Int64 => true | _ => false

/-- Smallest value of the type (integers by value, floats by bit pattern). -/
def minVal (t : epicsType) : Int :=
  if t.isSigned then -(2 ^ (t.bits - 1)) else 0

/-- Largest value of the type (integers by value, floats by bit pattern). -/
def maxVal (t : epicsType) : Int :=
  if t.isSigned then 2 ^ (t.bits - 1) - 1 else 2 ^ t.bits - 1

/-- Whether `v` is a value of the type: in range for an integer type, a bit pattern of the right
width for a float type. -/
def holds (t : epicsType) (v : Int) : Prop :=
  t.minVal ≤ v ∧ v ≤ t.maxVal

instance (t : epicsType) (v : Int) : Decidable (t.holds v) := by
  unfold holds; infer_instance

/-- Number of exponent bits of a float type. -/
def expBits : epicsType → Nat
  | Float32 => 8 | _ => 11

/-- Number of stored fraction bits of a float type. -/
def fracBits : epicsType → Nat
  | Float32 => 23 | _ => 52

end epicsType

/-! ## Numeric casts

The C++ casts `(epicsType) x` that `getValueT` performs. -/

/-- Integer conversion to an integer type: the value modulo `2 ^ width`, taken in the range of the
target type. -/
def wrapInt (t : epicsType) (v : Int) : Int :=
  if t.isSigned then (v + 2 ^ (t.bits - 1)) % 2 ^ t.bits - 2 ^ (t.bits - 1)
  else v % 2 ^ t.bits

/-- A decoded IEEE-754 value; a finite value is `± m * 2 ^ e`. -/
inductive FloatVal
  | finite (neg : Bool) (m : Nat) (e : Int)
  | inf (neg : Bool)
  | nan (neg : Bool) (payload : Nat)
  deriving DecidableEq, Repr

/-- Decode the bit pattern of a float of type `t`. -/
def decodeFloat (t : epicsType) (b : Int) : FloatVal :=
  let fb := t.fracBits
  let eb := t.expBits
  let n := b.toNat
  let frac := n % 2 ^ fb
  let ex := (n / 2 ^ fb) % 2 ^ eb
  let neg := decide ((n / 2 ^ (fb + eb)) % 2 = 1)
  let bias : Int := 2 ^ (eb - 1) - 1
  if ex = 2 ^ eb - 1 then
    if frac = 0 then .inf neg else .nan neg frac
  else if ex = 0 then .finite neg frac (1 - bias - fb)
  else .finite neg (2 ^ fb + frac) (ex - bias - fb)

/-- Number of binary digits of `n`, by halving at most `fuel` times. -/
def bitLength : Nat → Nat → Nat
  | 0, _ => 0
  | fuel + 1, n => if n = 0 then 0 else bitLength fuel (n / 2) + 1

/-- Sign bit of a float of type `t`, in place. -/
def signBit (t : epicsType) (neg : Bool) : Nat :=
  if neg then 2 ^ (t.fracBits + t.expBits) else 0

/-- Bit pattern of the float of type `t` nearest to `± m * 2 ^ e`, ties to even, overflowing to
infinity. -/
def encodeFloat (t : epicsType) (neg : Bool) (m : Nat) (e : Int) : Int :=
  let fb := t.fracBits
  let eb := t.expBits
  let bias : Int := 2 ^ (eb - 1) - 1
  let infBits : Nat := (2 ^ eb - 1) * 2 ^ fb
  if m = 0 then (signBit t neg : Nat) else
  -- exponent of the leading bit, and of the last kept bit
  let top : Int := (bitLength m m : Nat) - 1 + e
  let q : Int := max top (1 - bias) - fb
  let sig : Nat :=
    if q ≤ e then m * 2 ^ (e - q).toNat
    else
      let s := (q - e).toNat
      let lo := m % 2 ^ s
      let hi := m / 2 ^ s
      if 2 * lo > 2 ^ s ∨ (2 * lo = 2 ^ s ∧ hi % 2 = 1) then hi + 1 else hi
  let mag : Nat := (q + fb + bias - 1).toNat * 2 ^ fb + sig
  ((signBit t neg + min mag infBits : Nat) : Int)

/-- Truncation toward zero of a decoded float; `none` for an infinity or a NaN. -/
def truncFloat : FloatVal → Option Int
  | .finite neg m e =>
      let mag : Nat := if 0 ≤ e then m * 2 ^ e.toNat else m / 2 ^ (-e).toNat
      some (if neg then -(mag : Int) else mag)
  | _ => none

/-- Conversion between the two float types. -/
def floatToFloat (src dst : epicsType) (b : Int) : Int :=
  if src = dst then b else
  match decodeFloat src b with
  | .finite neg m e => encodeFloat dst neg m e
  | .inf neg => ((signBit dst neg + (2 ^ dst.expBits - 1) * 2 ^ dst.fracBits : Nat) : Int)
  | .nan neg p =>
      let p1 : Nat := if src.fracBits ≤ dst.fracBits then p * 2 ^ (dst.fracBits - src.fracBits)
                      else p / 2 ^ (src.fracBits - dst.fracBits)
      let quiet : Nat := 2 ^ (dst.fracBits - 1)
      ((signBit dst neg + (2 ^ dst.expBits - 1) * 2 ^ dst.fracBits
          + (if p1 / quiet % 2 = 1 then p1 else p1 + quiet) : Nat) : Int)

/-- The cast `(dst) x` of a value `x` of type `src`. `none` where C++ leaves the result undefined:
a float whose truncation is not representable in the integer type `dst`. -/
def castScalar (src dst : epicsType) (v : Int) : Option Int :=
  match src.isFloat, dst.isFloat with
  | false, false => some (wrapInt dst v)
  | false, true => some (encodeFloat dst (decide (v < 0)) v.natAbs 0)
  | true, false =>
      match truncFloat (decodeFloat src v) with
      | some z => if dst.holds z then some z else none
      | none => none
  | true, true => some (floatToFloat src dst v)

/-! ## Data model -/

/-- Union defining the values in an NDAttribute object. The state of a union is the member that
was stored last; `indeterminate` is the union before anything was stored. -/
inductive NDAttrValue
  | indeterminate
  | i8 (v : Int) | ui8 (v : Int) | i16 (v : Int) | ui16 (v : Int)
  | i32 (v : Int) | ui32 (v : Int) | i64 (v : Int) | ui64 (v : Int)
  | f32 (v : Int) | f64 (v : Int)
  deriving DecidableEq, Repr

namespace NDAttrValue

/-- Read of member `i8`; `none` unless it is the active member. -/
def i8? : NDAttrValue → Option Int | i8 v => some v | _ => none
/-- Read of member `ui8`. -/
def ui8? : NDAttrValue → Option Int | ui8 v => some v | _ => none
/-- Read of member `i16`. -/
def i16? : NDAttrValue → Option Int | i16 v => some v | _ => none
/-- Read of member `ui16`. -/
def ui16? : NDAttrValue → Option Int | ui16 v => some v | _ => none
/-- Read of member `i32`. -/
def i32? : NDAttrValue → Option Int | i32 v => some v | _ => none
/-- Read of member `ui32`. -/
def ui32? : NDAttrValue → Option Int | ui32 v => some v | _ => none
/-- Read of member `i64`. -/
def i64? : NDAttrValue → Option Int | i64 v => some v | _ => none
/-- Read of member `ui64`. -/
def ui64? : NDAttrValue → Option Int | ui64 v => some v | _ => none
/-- Read of member `f32`. -/
def f32? : NDAttrValue → Option Int | f32 v => some v | _ => none
/-- Read of member `f64`. -/
def f64? : NDAttrValue → Option Int | f64 v => some v | _ => none

/-- Read of the member whose type is `t`. -/
def read (u : NDAttrValue) : epicsType → Option Int
  | .Int8 => u.i8? | .UInt8 => u.ui8? | .Int16 => u.i16? | .UInt16 => u.ui16?
  | .Int32 => u.i32? | .UInt32 => u.ui32? | .Int64 => u.i64? | .UInt64 => u.ui64?
  | .Float32 => u.f32? | .Float64 => u.f64?

end NDAttrValue

/-- Struct defining the values in an NDAttribute vector object. -/
structure NDAttrVecValue where
  i8 : List Int := []
  ui8 : List Int := []
  i16 : List Int := []
  ui16 : List Int := []
  i32 : List Int := []
  ui32 : List Int := []
  i64 : List Int := []
  ui64 : List Int := []
  f32 : List Int := []
  f64 : List Int := []
  deriving DecidableEq, Repr

/-- NDAttribute class; an attribute has a name, description, source type, source string,
data type, and value. -/
structure NDAttribute where
  name_ : String
  description_ : String
  dataType_ : NDAttrDataType_t
  value_ : NDAttrValue
  string_ : String
  vector_ : NDAttrVecValue
  source_ : String
  sourceType_ : NDAttrSource_t
  sourceTypeString_ : String
  deriving DecidableEq, Repr

/-! ## Raw memory -/

/-- The object a non-null `const void *` argument points at. -/
inductive Pointee
  /-- An object of scalar type `t` holding `v`. -/
  | scalar (t : epicsType) (v : Int)
  /-- A char array holding the characters of `s` followed by a terminating zero. -/
  | chars (s : String)
  /-- A `std::vector` with elements of type `t`. -/
  | vector (t : epicsType) (xs : List Int)
  /-- An `NDAttrValue` union. -/
  | value (u : NDAttrValue)
  deriving DecidableEq, Repr

/-- A `const void *`: `none` is the null pointer. -/
abbrev VoidPtr := Option Pointee

/-- The characters of `s` up to its first zero character: what a `char *` to the characters of `s`
denotes as a C string. -/
def cstr (s : String) : String :=
  ⟨s.data.takeWhile (fun c => c != Char.ofNat 0)⟩

/-- The read `*(T *)pValue` for the scalar type `t`. -/
def derefScalar (t : epicsType) : VoidPtr → Option Int
  | some (.scalar u v) => if u = t then some v else none
  | some (.value u) => u.read t
  | _ => none

/-- The read `*(std::vector<T> *)pValue` for the element type `t`. -/
def derefVector (t : epicsType) : VoidPtr → Option (List Int)
  | some (.vector u xs) => if u = t then some xs else none
  | _ => none

/-- The C string at `(char *)pValue`. -/
def derefCString : VoidPtr → Option String
  | some (.chars s) => some (cstr s)
  | _ => none

/-- Content of the memory behind the `void *pValue` out-parameter of the generic `getValue`: what
was last written there. The memory is taken to be large enough for what a call writes. -/
inductive Buffer
  /-- One object of scalar type `t`. -/
  | scalar (t : epicsType) (v : Int)
  /-- A run of characters. -/
  | chars (cs : List Char)
  /-- The elements `xs` of type `t`, followed by the first `tail` bytes of one more element. -/
  | array (t : epicsType) (xs : List Int) (tail : Nat)
  deriving DecidableEq, Repr

/-- Result of `strncpy(dest, src.c_str(), n)`: exactly `n` characters, the C string of `src` cut to
`n` characters and filled up with zero characters. -/
def strncpy (src : String) (n : Nat) : List Char :=
  (cstr src).data.take n ++ List.replicate (n - (cstr src).data.length) (Char.ofNat 0)

/-- Result of `memcpy(dest, xs.data(), n)` for a vector `xs` with elements of type `t`; `none`
when `n` bytes reach past the end of the elements. -/
def memcpy (t : epicsType) (xs : List Int) (n : Nat) : Option Buffer :=
  if n ≤ xs.length * t.sizeof then some (.array t (xs.take (n / t.sizeof)) (n % t.sizeof))
  else none

/-! ## Member functions -/

/-- Strings corresponding to the source enums. -/
def NDAttrSourceStrings : List String :=
  ["DRIVER", "PARAM", "EPICS_PV", "FUNCTION", "CONST"]

/-- The lookup `NDAttrSourceStrings[type]`; `none` when the index is outside the table. -/
def attrSourceString (type : NDAttrSource_t) : Option String :=
  if 0 ≤ type then NDAttrSourceStrings[type.toNat]? else none

namespace NDAttribute

/-- Sets the data type of this attribute. This can only be called once. -/
def setDataType (a : NDAttribute) (type : NDAttrDataType_t) : Int × NDAttribute :=
  if type = a.dataType_ then (ND_SUCCESS, a)
  else if a.dataType_ ≠ NDAttrUndefined then (ND_ERROR, a)
  else if type < NDAttrInt8 ∨ type > NDAttrVecFloat64 then (ND_ERROR, a)
  else (ND_SUCCESS, { a with dataType_ := type })

/-- Returns the name of this attribute. -/
def getName (a : NDAttribute) : String × NDAttribute := (a.name_, a)

/-- Returns the data type of this attribute. -/
def getDataType (a : NDAttribute) : NDAttrDataType_t × NDAttribute := (a.dataType_, a)

/-- Returns the description of this attribute. -/
def getDescription (a : NDAttribute) : String × NDAttribute := (a.description_, a)

/-- Returns the source string of this attribute. -/
def getSource (a : NDAttribute) : String × NDAttribute := (a.source_, a)

/-- Returns the source information of this attribute: the source type string, the value stored
through `pSourceType`, and the attribute. -/
def getSourceInfo (a : NDAttribute) : String × NDAttrSource_t × NDAttribute :=
  (a.sourceTypeString_, a.sourceType_, a)

/-- Sets the value for this attribute from a raw pointer: `setValue(const void *pValue)`. -/
def setValue (a : NDAttribute) (pValue : VoidPtr) : Option (Int × NDAttribute) :=
  if a.dataType_ ≠ NDAttrUndefined ∧ pValue = none then some (ND_ERROR, a)
  else if a.dataType_ = NDAttrString then
    match derefCString pValue with
    | none => none
    | some s =>
        if a.string_ = s then some (ND_SUCCESS, a)
        else some (ND_SUCCESS, { a with string_ := s })
  else if a.dataType_ = NDAttrInt8 then
    (derefScalar .Int8 pValue).map fun v => (ND_SUCCESS, { a with value_ := .i8 v })
  else if a.dataType_ = NDAttrUInt8 then
    (derefScalar .UInt8 pValue).map fun v => (ND_SUCCESS, { a with value_ := .ui8 v })
  else if a.dataType_ = NDAttrInt16 then
    (derefScalar .Int16 pValue).map fun v => (ND_SUCCESS, { a with value_ := .i16 v })
  else if a.dataType_ = NDAttrUInt16 then
    (derefScalar .UInt16 pValue).map fun v => (ND_SUCCESS, { a with value_ := .ui16 v })
  else if a.dataType_ = NDAttrInt32 then
    (derefScalar .Int32 pValue).map fun v => (ND_SUCCESS, { a with value_ := .i32 v })
  else if a.dataType_ = NDAttrUInt32 then
    (derefScalar .UInt32 pValue).map fun v => (ND_SUCCESS, { a with value_ := .ui32 v })
  else if a.dataType_ = NDAttrInt64 then
    (derefScalar .Int64 pValue).map fun v => (ND_SUCCESS, { a with value_ := .i64 v })
  else if a.dataType_ = NDAttrUInt64 then
    (derefScalar .UInt64 pValue).map fun v => (ND_SUCCESS, { a with value_ := .ui64 v })
  else if a.dataType_ = NDAttrFloat32 then
    (derefScalar .Float32 pValue).map fun v => (ND_SUCCESS, { a with value_ := .f32 v })
  else if a.dataType_ = NDAttrFloat64 then
    (derefScalar .Float64 pValue).map fun v => (ND_SUCCESS, { a with value_ := .f64 v })
  else if a.dataType_ = NDAttrVecInt8 then
    (derefVector .Int8 pValue).map fun v =>
      (ND_SUCCESS, { a with vector_ := { a.vector_ with i8 := v } })
  else if a.dataType_ = NDAttrVecUInt8 then
    (derefVector .UInt8 pValue).map fun v =>
      (ND_SUCCESS, { a with vector_ := { a.vector_ with ui8 := v } })
  else if a.dataType_ = NDAttrVecInt16 then
    (derefVector .Int16 pValue).map fun v =>
      (ND_SUCCESS, { a with vector_ := { a.vector_ with i16 := v } })
  else if a.dataType_ = NDAttrVecUInt16 then
    (derefVector .UInt16 pValue).map fun v =>
      (ND_SUCCESS, { a with vector_ := { a.vector_ with ui16 := v } })
  else if a.dataType_ = NDAttrVecInt32 then
    (derefVector .Int32 pValue).map fun v =>
      (ND_SUCCESS, { a with vector_ := { a.vector_ with i32 := v } })
  else if a.dataType_ = NDAttrVecUInt32 then
    (derefVector .UInt32 pValue).map fun v =>
      (ND_SUCCESS, { a with vector_ := { a.vector_ with ui32 := v } })
  else if a.dataType_ = NDAttrVecInt64 then
    (derefVector .Int64 pValue).map fun v =>
      (ND_SUCCESS, { a with vector_ := { a.vector_ with i64 := v } })
  else if a.dataType_ = NDAttrVecUInt64 then
    (derefVector .UInt64 pValue).map fun v =>
      (ND_SUCCESS, { a with vector_ := { a.vector_ with ui64 := v } })
  else if a.dataType_ = NDAttrVecFloat32 then
    (derefVector .Float32 pValue).map fun v =>
      (ND_SUCCESS, { a with vector_ := { a.vector_ with f32 := v } })
  else if a.dataType_ = NDAttrVecFloat64 then
    (derefVector .Float64 pValue).map fun v =>
      (ND_SUCCESS, { a with vector_ := { a.vector_ with f64 := v } })
  else if a.dataType_ = NDAttrUndefined then some (ND_SUCCESS, a)
  else some (ND_ERROR, a)

/-- Sets the value for this attribute: `setValue(const std::string& value)`. -/
def setValue_string (a : NDAttribute) (value : String) : Int × NDAttribute :=
  if a.dataType_ = NDAttrString then (ND_SUCCESS, { a with string_ := value })
  else (ND_ERROR, a)

/-- Sets the value for this attribute: the overloads `setValue(std::vector<T>& value)`, selected
by the element type `T`. -/
def setValue_vector : epicsType → NDAttribute → List Int → Int × NDAttribute
  | .Int8, a, value =>
      if a.dataType_ = NDAttrVecInt8 then
        (ND_SUCCESS, { a with vector_ := { a.vector_ with i8 := value } })
      else (ND_ERROR, a)
  | .UInt8, a, value =>
      if a.dataType_ = NDAttrVecUInt8 then
        (ND_SUCCESS, { a with vector_ := { a.vector_ with ui8 := value } })
      else (ND_ERROR, a)
  | .Int16, a, value =>
      if a.dataType_ = NDAttrVecInt16 then
        (ND_SUCCESS, { a with vector_ := { a.vector_ with i16 := value } })
      else (ND_ERROR, a)
  | .UInt16, a, value =>
      if a.dataType_ = NDAttrVecUInt16 then
        (ND_SUCCESS, { a with vector_ := { a.vector_ with ui16 := value } })
      else (ND_ERROR, a)
  | .Int32, a, value =>
      if a.dataType_ = NDAttrVecInt32 then
        (ND_SUCCESS, { a with vector_ := { a.vector_ with i32 := value } })
      else (ND_ERROR, a)
  | .UInt32, a, value =>
      if a.dataType_ = NDAttrVecUInt32 then
        (ND_SUCCESS, { a with vector_ := { a.vector_ with ui32 := value } })
      else (ND_ERROR, a)
  | .Int64, a, value =>
      if a.dataType_ = NDAttrVecInt64 then
        (ND_SUCCESS, { a with vector_ := { a.vector_ with i64 := value } })
      else (ND_ERROR, a)
  | .UInt64, a, value =>
      if a.dataType_ = NDAttrVecUInt64 then
        (ND_SUCCESS, { a with vector_ := { a.vector_ with ui64 := value } })
      else (ND_ERROR, a)
  | .Float32, a, value =>
      if a.dataType_ = NDAttrVecFloat32 then
        (ND_SUCCESS, { a with vector_ := { a.vector_ with f32 := value } })
      else (ND_ERROR, a)
  | .Float64, a, value =>
      if a.dataType_ = NDAttrVecFloat64 then
        (ND_SUCCESS, { a with vector_ := { a.vector_ with f64 := value } })
      else (ND_ERROR, a)

/-- Returns the data type and size of this attribute: the return code, the value stored through
`pDataType`, the content of `*pSize` afterwards (`pSize` is its content before), and the
attribute. -/
def getValueInfo (a : NDAttribute) (pSize : Nat) : Int × NDAttrDataType_t × Nat × NDAttribute :=
  if a.dataType_ = NDAttrInt8 then (ND_SUCCESS, a.dataType_, epicsType.sizeof .Int8, a)
  else if a.dataType_ = NDAttrUInt8 then (ND_SUCCESS, a.dataType_, epicsType.sizeof .UInt8, a)
  else if a.dataType_ = NDAttrInt16 then (ND_SUCCESS, a.dataType_, epicsType.sizeof .Int16, a)
  else if a.dataType_ = NDAttrUInt16 then (ND_SUCCESS, a.dataType_, epicsType.sizeof .UInt16, a)
  else if a.dataType_ = NDAttrInt32 then (ND_SUCCESS, a.dataType_, epicsType.sizeof .Int32, a)
  else if a.dataType_ = NDAttrUInt32 then (ND_SUCCESS, a.dataType_, epicsType.sizeof .UInt32, a)
  else if a.dataType_ = NDAttrInt64 then (ND_SUCCESS, a.dataType_, epicsType.sizeof .Int64, a)
  else if a.dataType_ = NDAttrUInt64 then (ND_SUCCESS, a.dataType_, epicsType.sizeof .UInt64, a)
  else if a.dataType_ = NDAttrFloat32 then (ND_SUCCESS, a.dataType_, epicsType.sizeof .Float32, a)
  else if a.dataType_ = NDAttrFloat64 then (ND_SUCCESS, a.dataType_, epicsType.sizeof .Float64, a)
  else if a.dataType_ = NDAttrVecInt8 then
    (ND_SUCCESS, a.dataType_, a.vector_.i8.length * epicsType.sizeof .Int8, a)
  else if a.dataType_ = NDAttrVecUInt8 then
    (ND_SUCCESS, a.dataType_, a.vector_.ui8.length * epicsType.sizeof .UInt8, a)
  else if a.dataType_ = NDAttrVecInt16 then
    (ND_SUCCESS, a.dataType_, a.vector_.i16.length * epicsType.sizeof .Int16, a)
  else if a.dataType_ = NDAttrVecUInt16 then
    (ND_SUCCESS, a.dataType_, a.vector_.ui16.length * epicsType.sizeof .UInt16, a)
  else if a.dataType_ = NDAttrVecInt32 then
    (ND_SUCCESS, a.dataType_, a.vector_.i32.length * epicsType.sizeof .Int32, a)
  else if a.dataType_ = NDAttrVecUInt32 then
    (ND_SUCCESS, a.dataType_, a.vector_.ui32.length * epicsType.sizeof .UInt32, a)
  else if a.dataType_ = NDAttrVecInt64 then
    (ND_SUCCESS, a.dataType_, a.vector_.i64.length * epicsType.sizeof .Int16, a)
  else if a.dataType_ = NDAttrVecUInt64 then
    (ND_SUCCESS, a.dataType_, a.vector_.ui64.length * epicsType.sizeof .UInt16, a)
  else if a.dataType_ = NDAttrVecFloat32 then
    (ND_SUCCESS, a.dataType_, a.vector_.f32.length * epicsType.sizeof .Float32, a)
  else if a.dataType_ = NDAttrVecFloat64 then
    (ND_SUCCESS, a.dataType_, a.vector_.f64.length * epicsType.sizeof .Float64, a)
  else if a.dataType_ = NDAttrString then (ND_SUCCESS, a.dataType_, a.string_.length + 1, a)
  else if a.dataType_ = NDAttrUndefined then (ND_SUCCESS, a.dataType_, 0, a)
  else (ND_ERROR, a.dataType_, pSize, a)

set_option linter.unusedVariables false in
/-- The template `getValueT<epicsType>`: stores the scalar value, cast to `epicsType`, through
`pValueIn`. -/
def getValueT (T : epicsType) (a : NDAttribute) (pValueIn : Buffer) (dataSize : Nat) :
    Option (Int × Buffer × NDAttribute) :=
  if a.dataType_ = NDAttrInt8 then
    (a.value_.i8?.bind (castScalar .Int8 T)).map fun v => (ND_SUCCESS, .scalar T v, a)
  else if a.dataType_ = NDAttrUInt8 then
    (a.value_.ui8?.bind (castScalar .UInt8 T)).map fun v => (ND_SUCCESS, .scalar T v, a)
  else if a.dataType_ = NDAttrInt16 then
    (a.value_.i16?.bind (castScalar .Int16 T)).map fun v => (ND_SUCCESS, .scalar T v, a)
  else if a.dataType_ = NDAttrUInt16 then
    (a.value_.ui16?.bind (castScalar .UInt16 T)).map fun v => (ND_SUCCESS, .scalar T v, a)
  else if a.dataType_ = NDAttrInt32 then
    (a.value_.i32?.bind (castScalar .Int32 T)).map fun v => (ND_SUCCESS, .scalar T v, a)
  else if a.dataType_ = NDAttrUInt32 then
    (a.value_.ui32?.bind (castScalar .UInt32 T)).map fun v => (ND_SUCCESS, .scalar T v, a)
  else if a.dataType_ = NDAttrInt64 then
    (a.value_.i64?.bind (castScalar .Int64 T)).map fun v => (ND_SUCCESS, .scalar T v, a)
  else if a.dataType_ = NDAttrUInt64 then
    (a.value_.ui64?.bind (castScalar .UInt64 T)).map fun v => (ND_SUCCESS, .scalar T v, a)
  else if a.dataType_ = NDAttrFloat32 then
    (a.value_.f32?.bind (castScalar .Float32 T)).map fun v => (ND_SUCCESS, .scalar T v, a)
  else if a.dataType_ = NDAttrFloat64 then
    (a.value_.f64?.bind (castScalar .Float64 T)).map fun v => (ND_SUCCESS, .scalar T v, a)
  else some (ND_ERROR, pValueIn, a)

/-- The second `switch` of the generic `getValue`, on the requested `dataType`. -/
def getValue_dispatch (a : NDAttribute) (dataType : NDAttrDataType_t) (pValue : Buffer)
    (dataSize : Nat) : Option (Int × Buffer × NDAttribute) :=
  if dataType = NDAttrInt8 then getValueT .Int8 a pValue dataSize
  else if dataType = NDAttrUInt8 then getValueT .UInt8 a pValue dataSize
  else if dataType = NDAttrInt16 then getValueT .Int16 a pValue dataSize
  else if dataType = NDAttrUInt16 then getValueT .UInt16 a pValue dataSize
  else if dataType = NDAttrInt32 then getValueT .Int32 a pValue dataSize
  else if dataType = NDAttrUInt32 then getValueT .UInt32 a pValue dataSize
  else if dataType = NDAttrInt64 then getValueT .Int64 a pValue dataSize
  else if dataType = NDAttrUInt64 then getValueT .UInt64 a pValue dataSize
  else if dataType = NDAttrFloat32 then getValueT .Float32 a pValue dataSize
  else if dataType = NDAttrFloat64 then getValueT .Float64 a pValue dataSize
  else some (ND_ERROR, pValue, a)

/-- Returns the value of this attribute: `getValue(NDAttrDataType_t dataType, void *pValue,
size_t dataSize)`. `pValue` is the content of the caller's memory before the call; the result is
the return code, the content afterwards, and the attribute. -/
def getValue (a : NDAttribute) (dataType : NDAttrDataType_t) (pValue : Buffer) (dataSize : Nat) :
    Option (Int × Buffer × NDAttribute) :=
  if a.dataType_ ≠ dataType then some (ND_ERROR, pValue, a)
  else if a.dataType_ = NDAttrString then
    let dataSize := if dataSize = 0 then a.string_.length + 1 else dataSize
    some (ND_SUCCESS, .chars (strncpy a.string_ dataSize), a)
  else if a.dataType_ = NDAttrVecInt8 then
    let dataSize := if dataSize = 0 then a.vector_.i8.length * epicsType.sizeof .Int8 else dataSize
    (memcpy .Int8 a.vector_.i8 dataSize).bind fun pValue =>
      getValue_dispatch a dataType pValue dataSize
  else if a.dataType_ = NDAttrVecUInt8 then
    let dataSize := if dataSize = 0 then a.vector_.ui8.length * epicsType.sizeof .UInt8 else dataSize
    (memcpy .UInt8 a.vector_.ui8 dataSize).bind fun pValue =>
      getValue_dispatch a dataType pValue dataSize
  else if a.dataType_ = NDAttrVecInt16 then
    let dataSize := if dataSize = 0 then a.vector_.i16.length * epicsType.sizeof .Int16 else dataSize
    (memcpy .Int16 a.vector_.i16 dataSize).bind fun pValue =>
      getValue_dispatch a dataType pValue dataSize
  else if a.dataType_ = NDAttrVecUInt16 then
    let dataSize := if dataSize = 0 then a.vector_.ui16.length * epicsType.sizeof .UInt16 else dataSize
    (memcpy .UInt16 a.vector_.ui16 dataSize).bind fun pValue =>
      getValue_dispatch a dataType pValue dataSize
  else if a.dataType_ = NDAttrVecInt32 then
    let dataSize := if dataSize = 0 then a.vector_.i32.length * epicsType.sizeof .Int32 else dataSize
    (memcpy .Int32 a.vector_.i32 dataSize).bind fun pValue =>
      getValue_dispatch a dataType pValue dataSize
  else if a.dataType_ = NDAttrVecUInt32 then
    let dataSize := if dataSize = 0 then a.vector_.ui32.length * epicsType.sizeof .UInt32 else dataSize
    (memcpy .UInt32 a.vector_.ui32 dataSize).bind fun pValue =>
      getValue_dispatch a dataType pValue dataSize
  else if a.dataType_ = NDAttrVecInt64 then
    let dataSize := if dataSize = 0 then a.vector_.i64.length * epicsType.sizeof .Int64 else dataSize
    (memcpy .Int64 a.vector_.i64 dataSize).bind fun pValue =>
      getValue_dispatch a dataType pValue dataSize
  else if a.dataType_ = NDAttrVecUInt64 then
    let dataSize := if dataSize = 0 then a.vector_.ui64.length * epicsType.sizeof .UInt64 else dataSize
    (memcpy .UInt64 a.vector_.ui64 dataSize).bind fun pValue =>
      getValue_dispatch a dataType pValue dataSize
  else if a.dataType_ = NDAttrVecFloat32 then
    let dataSize := if dataSize = 0 then a.vector_.f32.length * epicsType.sizeof .Float32 else dataSize
    (memcpy .Float32 a.vector_.f32 dataSize).bind fun pValue =>
      getValue_dispatch a dataType pValue dataSize
  else if a.dataType_ = NDAttrVecFloat64 then
    let dataSize := if dataSize = 0 then a.vector_.f64.length * epicsType.sizeof .Float64 else dataSize
    (memcpy .Float64 a.vector_.f64 dataSize).bind fun pValue =>
      getValue_dispatch a dataType pValue dataSize
  else if a.dataType_ = NDAttrUndefined then some (ND_ERROR, pValue, a)
  else getValue_dispatch a dataType pValue dataSize

/-- Returns the value of an NDAttrString attribute as a string: `getValue(std::string& value)`.
`value` is the content of the reference before the call. -/
def getValue_string (a : NDAttribute) (value : String) : Int × String × NDAttribute :=
  if a.dataType_ = NDAttrString then (ND_SUCCESS, a.string_, a)
  else (ND_ERROR, value, a)

/-- Returns the value of a vector attribute: the overloads `getValue(std::vector<T>& value)`,
selected by the element type `T`. `value` is the content of the reference before the call. -/
def getValue_vector : epicsType → NDAttribute → List Int → Int × List Int × NDAttribute
  | .Int8, a, value =>
      if a.dataType_ = NDAttrVecInt8 then (ND_SUCCESS, a.vector_.i8, a)
      else (ND_ERROR, value, a)
  | .UInt8, a, value =>
      if a.dataType_ = NDAttrVecUInt8 then (ND_SUCCESS, a.vector_.ui8, a)
      else (ND_ERROR, value, a)
  | .Int16, a, value =>
      if a.dataType_ = NDAttrVecInt16 then (ND_SUCCESS, a.vector_.i16, a)
      else (ND_ERROR, value, a)
  | .UInt16, a, value =>
      if a.dataType_ = NDAttrVecUInt16 then (ND_SUCCESS, a.vector_.ui16, a)
      else (ND_ERROR, value, a)
  | .Int32, a, value =>
      if a.dataType_ = NDAttrVecInt32 then (ND_SUCCESS, a.vector_.i32, a)
      else (ND_ERROR, value, a)
  | .UInt32, a, value =>
      if a.dataType_ = NDAttrVecUInt32 then (ND_SUCCESS, a.vector_.ui32, a)
      else (ND_ERROR, value, a)
  | .Int64, a, value =>
      if a.dataType_ = NDAttrVecInt64 then (ND_SUCCESS, a.vector_.i64, a)
      else (ND_ERROR, value, a)
  | .UInt64, a, value =>
      if a.dataType_ = NDAttrVecUInt64 then (ND_SUCCESS, a.vector_.ui64, a)
      else (ND_ERROR, value, a)
  | .Float32, a, value =>
      if a.dataType_ = NDAttrVecFloat32 then (ND_SUCCESS, a.vector_.f32, a)
      else (ND_ERROR, value, a)
  | .Float64, a, value =>
      if a.dataType_ = NDAttrVecFloat64 then (ND_SUCCESS, a.vector_.f64, a)
      else (ND_ERROR, value, a)

/-- Updates the current value of this attribute. The base class does nothing. -/
def updateValue (a : NDAttribute) : Int × NDAttribute := (ND_SUCCESS, a)

/-- The part of the NDAttribute constructor before `if (pValue)`: the member initialisers and the
assignments of the identity and provenance fields. A null `const char *` is `none`. -/
def construct_init (pName pDescription : Option String) (sourceType : NDAttrSource_t)
    (pSource : Option String) : NDAttribute :=
  let a0 : NDAttribute :=
    { name_ := match pName with | some s => cstr s | none => ""
      description_ := match pDescription with | some s => cstr s | none => ""
      dataType_ := NDAttrUndefined
      value_ := .indeterminate
      string_ := ""
      vector_ := {}
      source_ := ""
      sourceType_ := sourceType
      sourceTypeString_ := "" }
  let a1 : NDAttribute :=
    if sourceType = NDAttrSourceDriver then { a0 with sourceTypeString_ := "NDAttrSourceDriver" }
    else if sourceType = NDAttrSourceEPICSPV then
      { a0 with sourceTypeString_ := "NDAttrSourceEPICSPV" }
    else if sourceType = NDAttrSourceParam then { a0 with sourceTypeString_ := "NDAttrSourceParam" }
    else if sourceType = NDAttrSourceFunct then { a0 with sourceTypeString_ := "NDAttrSourceFunct" }
    else if sourceType = NDAttrSourceConst then { a0 with sourceTypeString_ := "NDAttrSourceConst" }
    else { a0 with sourceType_ := NDAttrSourceUndefined, sourceTypeString_ := "Undefined" }
  { a1 with source_ := match pSource with | some s => cstr s | none => "", string_ := "" }

/-- NDAttribute constructor. -/
def construct (pName pDescription : Option String) (sourceType : NDAttrSource_t)
    (pSource : Option String) (dataType : NDAttrDataType_t) (pValue : VoidPtr) :
    Option NDAttribute :=
  let a := construct_init pName pDescription sourceType pSource
  if pValue ≠ none then
    (setValue (setDataType a dataType).2 pValue).map fun r => r.2
  else some a

/-- NDAttribute copy constructor: the new attribute, and the attribute copied from (`other`)
afterwards. -/
def copyConstruct (other : NDAttribute) : Option (NDAttribute × NDAttribute) :=
  let a0 : NDAttribute :=
    { name_ := other.name_
      description_ := other.description_
      source_ := other.source_
      sourceType_ := other.sourceType_
      sourceTypeString_ := other.sourceTypeString_
      string_ := ""
      dataType_ := other.dataType_
      value_ := .indeterminate
      vector_ := {} }
  let pValue : VoidPtr :=
    if other.dataType_ = NDAttrString then some (.chars other.string_)
    else some (.value other.value_)
  (setValue a0 pValue).map fun r => (r.2, other)

/-- Copies properties from `a` to `pOut`; with a null `pOut` the output attribute is created by
the copy constructor. The result is the attribute returned (`*pOut` afterwards) and `a`
afterwards. -/
def copy (a : NDAttribute) (pOut : Option NDAttribute) : Option (NDAttribute × NDAttribute) :=
  match pOut with
  | none => copyConstruct a
  | some out =>
      let pValue : VoidPtr :=
        if a.dataType_ = NDAttrString then some (.chars a.string_)
        else some (.value a.value_)
      (setValue out pValue).map fun r => (r.2, a)

end NDAttribute

/-! ## Public operations as a transition system -/

/-- A call of a public member function on an existing attribute, with its arguments. -/
inductive Op
  | setDataType (type : NDAttrDataType_t)
  | setValue (pValue : VoidPtr)
  | setValue_string (value : String)
  | setValue_vector (T : epicsType) (value : List Int)
  | getName
  | getDataType
  | getDescription
  | getSource
  | getSourceInfo
  | getValueInfo (pSize : Nat)
  | getValue (dataType : NDAttrDataType_t) (pValue : Buffer) (dataSize : Nat)
  | getValue_string (value : String)
  | getValue_vector (T : epicsType) (value : List Int)
  | updateValue
  /-- The call `copy(pOut)` on the attribute. -/
  | copy (pOut : Option NDAttribute)
  /-- The call `other.copy(this)`: the attribute is the target of a copy. -/
  | copyTarget (other : NDAttribute)

namespace Op

/-- Whether the call reads or writes memory through a raw pointer. -/
def raw : Op → Bool
  | setValue _ => true
  | getValue _ _ _ => true
  | copy _ => true
  | copyTarget _ => true
  | _ => false

/-- The attribute after the call; `none` when the call has undefined behaviour. -/
def run : Op → NDAttribute → Option NDAttribute
  | setDataType type, a => some (a.setDataType type).2
  | setValue pValue, a => (a.setValue pValue).map fun r => r.2
  | setValue_string value, a => some (a.setValue_string value).2
  | setValue_vector T value, a => some (NDAttribute.setValue_vector T a value).2
  | getName, a => some a.getName.2
  | getDataType, a => some a.getDataType.2
  | getDescription, a => some a.getDescription.2
  | getSource, a => some a.getSource.2
  | getSourceInfo, a => some a.getSourceInfo.2.2
  | getValueInfo pSize, a => some (a.getValueInfo pSize).2.2.2
  | getValue dataType pValue dataSize, a => (a.getValue dataType pValue dataSize).map fun r => r.2.2
  | getValue_string value, a => some (a.getValue_string value).2.2
  | getValue_vector T value, a => some (NDAttribute.getValue_vector T a value).2.2
  | updateValue, a => some a.updateValue.2
  | copy pOut, a => (a.copy pOut).map fun r => r.2
  | copyTarget other, a => (other.copy (some a)).map fun r => r.1

end Op

/-! ## Kinds by element type -/

/-- The scalar data type whose values have type `t`. -/
def scalarKind : epicsType → NDAttrDataType_t
  | .Int8 => NDAttrInt8
  | .UInt8 => NDAttrUInt8
  | .Int16 => NDAttrInt16
  | .UInt16 => NDAttrUInt16
  | .Int32 => NDAttrInt32
  | .UInt32 => NDAttrUInt32
  | .Int64 => NDAttrInt64
  | .UInt64 => NDAttrUInt64
  | .Float32 => NDAttrFloat32
  | .Float64 => NDAttrFloat64

/-- The vector data type whose elements have type `t`. -/
def vectorKind : epicsType → NDAttrDataType_t
  | .Int8 => NDAttrVecInt8
  | .UInt8 => NDAttrVecUInt8
  | .Int16 => NDAttrVecInt16
  | .UInt16 => NDAttrVecUInt16
  | .Int32 => NDAttrVecInt32
  | .UInt32 => NDAttrVecUInt32
  | .Int64 => NDAttrVecInt64
  | .UInt64 => NDAttrVecUInt64
  | .Float32 => NDAttrVecFloat32
  | .Float64 => NDAttrVecFloat64

/-- The member of the vector struct with elements of type `t`. -/
def NDAttrVecValue.get (w : NDAttrVecValue) : epicsType → List Int
  | .Int8 => w.i8
  | .UInt8 => w.ui8
  | .Int16 => w.i16
  | .UInt16 => w.ui16
  | .Int32 => w.i32
  | .UInt32 => w.ui32
  | .Int64 => w.i64
  | .UInt64 => w.ui64
  | .Float32 => w.f32
  | .Float64 => w.f64

/-- The vector struct with the member of element type `t` replaced by `xs`. -/
def NDAttrVecValue.set (w : NDAttrVecValue) : epicsType → List Int → NDAttrVecValue
  | .Int8, xs => { w with i8 := xs }
  | .UInt8, xs => { w with ui8 := xs }
  | .Int16, xs => { w with i16 := xs }
  | .UInt16, xs => { w with ui16 := xs }
  | .Int32, xs => { w with i32 := xs }
  | .UInt32, xs => { w with ui32 := xs }
  | .Int64, xs => { w with i64 := xs }
  | .UInt64, xs => { w with ui64 := xs }
  | .Float32, xs => { w with f32 := xs }
  | .Float64, xs => { w with f64 := xs }

/-- The union holding `v` in the member of type `t`. -/
def NDAttrValue.ofScalar : epicsType → Int → NDAttrValue
  | .Int8, v => .i8 v
  | .UInt8, v => .ui8 v
  | .Int16, v => .i16 v
  | .UInt16, v => .ui16 v
  | .Int32, v => .i32 v
  | .UInt32, v => .ui32 v
  | .Int64, v => .i64 v
  | .UInt64, v => .ui64 v
  | .Float32, v => .f32 v
  | .Float64, v => .f64 v

/-- The identity and provenance fields of `c` equal those of `a`. -/
def sameIdentity (c a : NDAttribute) : Prop :=
  c.name_ = a.name_ ∧ c.description_ = a.description_ ∧ c.source_ = a.source_ ∧
    c.sourceType_ = a.sourceType_ ∧ c.sourceTypeString_ = a.sourceTypeString_

instance (c a : NDAttribute) : Decidable (sameIdentity c a) := by
  unfold sameIdentity; infer_instance

/-- The attribute states a program can reach: those built by the constructor or by the copy
constructor from a reachable attribute, and those left by a public operation on a reachable
attribute. -/
inductive Reachable : NDAttribute → Prop
  | construct (pName pDescription : Option String) (sourceType : NDAttrSource_t)
      (pSource : Option String) (dataType : NDAttrDataType_t) (pValue : VoidPtr)
      (a : NDAttribute)
      (h : NDAttribute.construct pName pDescription sourceType pSource dataType pValue = some a) :
      Reachable a
  | copyConstruct (other a r : NDAttribute) (ho : Reachable other)
      (h : NDAttribute.copyConstruct other = some (a, r)) : Reachable a
  | step (op : Op) (a b : NDAttribute) (ha : Reachable a) (h : op.run a = some b) : Reachable b

/-- Number of bytes the generic `getValue` writes for a string of length `len`: the size asked
for, or `len + 1` when the size asked for is 0. -/
def stringReadSize (len dataSize : Nat) : Nat :=
  if dataSize = 0 then len + 1 else dataSize

/-- The source-kind label mapping of the specification: the source type an attribute ends up with
and its label, for a source type passed to the constructor. The five known kinds keep their value
and get their own label; anything else becomes `NDAttrSourceUndefined` with label "Undefined". -/
def specSourceInfo (sourceType : NDAttrSource_t) : NDAttrSource_t × String :=
  if sourceType = NDAttrSourceDriver then (NDAttrSourceDriver, "NDAttrSourceDriver")
  else if sourceType = NDAttrSourceParam then (NDAttrSourceParam, "NDAttrSourceParam")
  else if sourceType = NDAttrSourceEPICSPV then (NDAttrSourceEPICSPV, "NDAttrSourceEPICSPV")
  else if sourceType = NDAttrSourceFunct then (NDAttrSourceFunct, "NDAttrSourceFunct")
  else if sourceType = NDAttrSourceConst then (NDAttrSourceConst, "NDAttrSourceConst")
  else (NDAttrSourceUndefined, "Undefined")

/-! ## Sample states -/

/-- An attribute as the constructor leaves it when no value is supplied. -/
def untyped : NDAttribute :=
  { name_ := "Gain"
    description_ := "Detector gain"
    dataType_ := NDAttrUndefined
    value_ := .indeterminate
    string_ := ""
    vector_ := {}
    source_ := "GAIN"
    sourceType_ := NDAttrSourceParam
    sourceTypeString_ := "NDAttrSourceParam" }

/-- An Int32 attribute holding 300. -/
def int32Attr : NDAttribute :=
  { untyped with dataType_ := NDAttrInt32, value_ := .i32 300 }

/-- A Float64 attribute holding 3.9 (bit pattern `0x400F333333333333`). -/
def float64Attr : NDAttribute :=
  { untyped with dataType_ := NDAttrFloat64, value_ := .f64 0x400F333333333333 }

/-- A String attribute holding "abc". -/
def stringAttr : NDAttribute :=
  { untyped with dataType_ := NDAttrString, string_ := "abc" }

/-- A String attribute whose stored string has a zero byte in the middle, as
`setValue(const std::string&)` can store it. -/
def zeroByteStringAttr : NDAttribute :=
  { untyped with dataType_ := NDAttrString, string_ := String.mk ['a', Char.ofNat 0, 'b'] }

/-- A VecInt8 attribute holding three elements. -/
def vecInt8Attr : NDAttribute :=
  { untyped with dataType_ := NDAttrVecInt8, vector_ := { i8 := [1, -2, 3] } }

/-- A VecInt32 attribute holding three elements. -/
def vecInt32Attr : NDAttribute :=
  { untyped with dataType_ := NDAttrVecInt32, vector_ := { i32 := [10, 20, 30] } }

/-- A VecInt64 attribute holding five elements. -/
def vecInt64Attr : NDAttribute :=
  { untyped with dataType_ := NDAttrVecInt64, vector_ := { i64 := [1, 2, 3, 4, 5] } }

/-- A VecUInt64 attribute holding five elements. -/
def vecUInt64Attr : NDAttribute :=
  { untyped with dataType_ := NDAttrVecUInt64, vector_ := { ui64 := [1, 2, 3, 4, 5] } }

/-! ## Values of the enumerators -/

@[simp] theorem NDAttrInt8_eq : NDAttrInt8 = 0 := rfl
@[simp] theorem NDAttrUInt8_eq : NDAttrUInt8 = 1 := rfl
@[simp] theorem NDAttrInt16_eq : NDAttrInt16 = 2 := rfl
@[simp] theorem NDAttrUInt16_eq : NDAttrUInt16 = 3 := rfl
@[simp] theorem NDAttrInt32_eq : NDAttrInt32 = 4 := rfl
@[simp] theorem NDAttrUInt32_eq : NDAttrUInt32 = 5 := rfl
@[simp] theorem NDAttrInt64_eq : NDAttrInt64 = 6 := rfl
@[simp] theorem NDAttrUInt64_eq : NDAttrUInt64 = 7 := rfl
@[simp] theorem NDAttrFloat32_eq : NDAttrFloat32 = 8 := rfl
@[simp] theorem NDAttrFloat64_eq : NDAttrFloat64 = 9 := rfl
@[simp] theorem NDAttrString_eq : NDAttrString = 10 := rfl
@[simp] theorem NDAttrVecInt8_eq : NDAttrVecInt8 = 11 := rfl
@[simp] theorem NDAttrVecUInt8_eq : NDAttrVecUInt8 = 12 := rfl
@[simp] theorem NDAttrVecInt16_eq : NDAttrVecInt16 = 13 := rfl
@[simp] theorem NDAttrVecUInt16_eq : NDAttrVecUInt16 = 14 := rfl
@[simp] theorem NDAttrVecInt32_eq : NDAttrVecInt32 = 15 := rfl
@[simp] theorem NDAttrVecUInt32_eq : NDAttrVecUInt32 = 16 := rfl
@[simp] theorem NDAttrVecInt64_eq : NDAttrVecInt64 = 17 := rfl
@[simp] theorem NDAttrVecUInt64_eq : NDAttrVecUInt64 = 18 := rfl
@[simp] theorem NDAttrVecFloat32_eq : NDAttrVecFloat32 = 19 := rfl
@[simp] theorem NDAttrVecFloat64_eq : NDAttrVecFloat64 = 20 := rfl
@[simp] theorem NDAttrUndefined_eq : NDAttrUndefined = 21 := rfl
@[simp] theorem NDAttrSourceDriver_eq : NDAttrSourceDriver = 0 := rfl
@[simp] theorem NDAttrSourceParam_eq : NDAttrSourceParam = 1 := rfl
@[simp] theorem NDAttrSourceEPICSPV_eq : NDAttrSourceEPICSPV = 2 := rfl
@[simp] theorem NDAttrSourceFunct_eq : NDAttrSourceFunct = 3 := rfl
@[simp] theorem NDAttrSourceConst_eq : NDAttrSourceConst = 4 := rfl
@[simp] theorem NDAttrSourceUndefined_eq : NDAttrSourceUndefined = 5 := rfl
@[simp] theorem ND_SUCCESS_eq : ND_SUCCESS = 0 := rfl
@[simp] theorem ND_ERROR_eq : ND_ERROR = -1 := rfl

/-! ## The data type is set once -/

theorem setDataType_same (b : NDAttribute) :
    b.setDataType b.dataType_ = (ND_SUCCESS, b) := by
  simp [NDAttribute.setDataType]

theorem setDataType_other (b : NDAttribute) (K2 : NDAttrDataType_t)
    (hb : b.dataType_ ≠ NDAttrUndefined) (h2 : K2 ≠ b.dataType_) :
    b.setDataType K2 = (ND_ERROR, b) := by
  simp only [NDAttribute.setDataType, if_neg h2, if_pos hb]

theorem setDataType_dataType_of_success (a : NDAttribute) (K : NDAttrDataType_t)
    (hok : (a.setDataType K).1 = ND_SUCCESS) : (a.setDataType K).2.dataType_ = K := by
  unfold NDAttribute.setDataType at hok ⊢
  split_ifs at hok ⊢ with h1 h2 h3
  · exact h1.symm
  · simp at hok
  · simp at hok
  · rfl

/-- Case analysis on an integer used as a data type: one of the 22 enumerators, or none. -/
theorem dataType_cases (t : Int) :
    t = NDAttrInt8 ∨ t = NDAttrUInt8 ∨ t = NDAttrInt16 ∨ t = NDAttrUInt16 ∨ t = NDAttrInt32 ∨ t = NDAttrUInt32 ∨ t = NDAttrInt64 ∨ t = NDAttrUInt64 ∨ t = NDAttrFloat32 ∨ t = NDAttrFloat64 ∨ t = NDAttrString ∨ t = NDAttrVecInt8 ∨ t = NDAttrVecUInt8 ∨ t = NDAttrVecInt16 ∨ t = NDAttrVecUInt16 ∨ t = NDAttrVecInt32 ∨ t = NDAttrVecUInt32 ∨ t = NDAttrVecInt64 ∨ t = NDAttrVecUInt64 ∨ t = NDAttrVecFloat32 ∨ t = NDAttrVecFloat64 ∨ t = NDAttrUndefined ∨
    (t ≠ NDAttrInt8 ∧ t ≠ NDAttrUInt8 ∧ t ≠ NDAttrInt16 ∧ t ≠ NDAttrUInt16 ∧ t ≠ NDAttrInt32 ∧ t ≠ NDAttrUInt32 ∧ t ≠ NDAttrInt64 ∧ t ≠ NDAttrUInt64 ∧ t ≠ NDAttrFloat32 ∧ t ≠ NDAttrFloat64 ∧ t ≠ NDAttrString ∧ t ≠ NDAttrVecInt8 ∧ t ≠ NDAttrVecUInt8 ∧ t ≠ NDAttrVecInt16 ∧ t ≠ NDAttrVecUInt16 ∧ t ≠ NDAttrVecInt32 ∧ t ≠ NDAttrVecUInt32 ∧ t ≠ NDAttrVecInt64 ∧ t ≠ NDAttrVecUInt64 ∧ t ≠ NDAttrVecFloat32 ∧ t ≠ NDAttrVecFloat64 ∧ t ≠ NDAttrUndefined) := by
  simp only [NDAttrInt8_eq, NDAttrUInt8_eq, NDAttrInt16_eq, NDAttrUInt16_eq, NDAttrInt32_eq, NDAttrUInt32_eq, NDAttrInt64_eq, NDAttrUInt64_eq, NDAttrFloat32_eq, NDAttrFloat64_eq, NDAttrString_eq, NDAttrVecInt8_eq, NDAttrVecUInt8_eq, NDAttrVecInt16_eq, NDAttrVecUInt16_eq, NDAttrVecInt32_eq, NDAttrVecUInt32_eq, NDAttrVecInt64_eq, NDAttrVecUInt64_eq, NDAttrVecFloat32_eq, NDAttrVecFloat64_eq, NDAttrUndefined_eq]
  omega

theorem setValue_dataType (a : NDAttribute) (p : VoidPtr) (r : Int × NDAttribute)
    (h : a.setValue p = some r) : r.2.dataType_ = a.dataType_ := by
  revert h
  rcases dataType_cases a.dataType_ with
    h | h | h | h | h | h | h | h | h | h | h | h | h | h | h | h | h | h | h | h | h | h | h
  all_goals simp only [NDAttribute.setValue, h]
  all_goals simp
  all_goals intro hr
  all_goals repeat' split at hr
  all_goals first
    | (simp only [Option.some.injEq] at hr; subst hr; simp [h])
    | (simp only [Option.map_eq_some'] at hr; obtain ⟨v, -, rfl⟩ := hr; simp [h])
    | (subst hr; simp [h])
    | (simp at hr)

theorem getValueT_state (T : epicsType) (a : NDAttribute) (b : Buffer) (n : Nat)
    (r : Int × Buffer × NDAttribute) (h : a.getValueT T b n = some r) : r.2.2 = a := by
  revert h
  rcases dataType_cases a.dataType_ with
    h | h | h | h | h | h | h | h | h | h | h | h | h | h | h | h | h | h | h | h | h | h | h
  all_goals simp only [NDAttribute.getValueT, h]
  all_goals simp
  all_goals intro hr
  all_goals first
    | (simp only [Option.bind_eq_some, Option.map_eq_some'] at hr
       obtain ⟨v, -, w, -, rfl⟩ := hr; rfl)
    | (subst hr; rfl)

theorem getValue_dispatch_state (a : NDAttribute) (dt : NDAttrDataType_t) (b : Buffer) (n : Nat)
    (r : Int × Buffer × NDAttribute) (h : a.getValue_dispatch dt b n = some r) : r.2.2 = a := by
  unfold NDAttribute.getValue_dispatch at h
  repeat' split at h
  all_goals first
    | exact getValueT_state _ _ _ _ _ h
    | (simp only [Option.some.injEq] at h; subst h; rfl)

theorem getValue_state (a : NDAttribute) (dt : NDAttrDataType_t) (b : Buffer) (n : Nat)
    (r : Int × Buffer × NDAttribute) (h : a.getValue dt b n = some r) : r.2.2 = a := by
  revert h
  by_cases hdt : a.dataType_ = dt
  · subst hdt
    rcases dataType_cases a.dataType_ with
      h | h | h | h | h | h | h | h | h | h | h | h | h | h | h | h | h | h | h | h | h | h | h
    all_goals simp only [NDAttribute.getValue, h]
    all_goals simp
    all_goals intro hr
    all_goals first
      | exact getValue_dispatch_state _ _ _ _ _ hr
      | (subst hr; rfl)
      | (simp only [Option.bind_eq_some] at hr; obtain ⟨v, -, hr⟩ := hr
         exact getValue_dispatch_state _ _ _ _ _ hr)
  · simp only [NDAttribute.getValue, ne_eq, hdt, not_false_eq_true, if_true, Option.some.injEq]
    rintro rfl; rfl

theorem setDataType_dataType_of_typed (a : NDAttribute) (t : NDAttrDataType_t)
    (ha : a.dataType_ ≠ NDAttrUndefined) : (a.setDataType t).2.dataType_ = a.dataType_ := by
  unfold NDAttribute.setDataType
  split_ifs <;> rfl

theorem setValue_string_dataType (a : NDAttribute) (value : String) :
    (a.setValue_string value).2.dataType_ = a.dataType_ := by
  unfold NDAttribute.setValue_string
  split_ifs <;> rfl

theorem setValue_vector_dataType (T : epicsType) (a : NDAttribute) (value : List Int) :
    (NDAttribute.setValue_vector T a value).2.dataType_ = a.dataType_ := by
  cases T <;> simp only [NDAttribute.setValue_vector] <;> split_ifs <;> rfl

theorem getValueInfo_state (a : NDAttribute) (pSize : Nat) : (a.getValueInfo pSize).2.2.2 = a := by
  rcases dataType_cases a.dataType_ with
    h | h | h | h | h | h | h | h | h | h | h | h | h | h | h | h | h | h | h | h | h | h | h
  all_goals simp only [NDAttribute.getValueInfo, h]
  all_goals simp

theorem getValue_string_state (a : NDAttribute) (value : String) :
    (a.getValue_string value).2.2 = a := by
  unfold NDAttribute.getValue_string
  split_ifs <;> rfl

theorem getValue_vector_state (T : epicsType) (a : NDAttribute) (value : List Int) :
    (NDAttribute.getValue_vector T a value).2.2 = a := by
  cases T <;> simp only [NDAttribute.getValue_vector] <;> split_ifs <;> rfl

theorem copy_source_state (a : NDAttribute) (pOut : Option NDAttribute)
    (r : NDAttribute × NDAttribute) (h : a.copy pOut = some r) : r.2 = a := by
  cases pOut with
  | none =>
      simp only [NDAttribute.copy, NDAttribute.copyConstruct, Option.map_eq_some'] at h
      obtain ⟨v, -, rfl⟩ := h; rfl
  | some out =>
      simp only [NDAttribute.copy, Option.map_eq_some'] at h
      obtain ⟨v, -, rfl⟩ := h; rfl

theorem copy_target_dataType (other out : NDAttribute) (r : NDAttribute × NDAttribute)
    (h : other.copy (some out) = some r) : r.1.dataType_ = out.dataType_ := by
  simp only [NDAttribute.copy, Option.map_eq_some'] at h
  obtain ⟨v, hv, rfl⟩ := h
  exact setValue_dataType _ _ _ hv

/-- C1: type-state immutability. For every attribute whose data type is not Undefined and every
public operation applied to it (setDataType with any argument, setValue through the raw pointer,
a string or a vector of any of the ten element types, every getValue overload, getValueInfo,
updateValue, the plain getters, copy, and being the target of a copy), the data type after the
operation equals the data type before it. The state after exists whenever the call has defined
behaviour, and always for an operation that does not go through a raw pointer. -/
theorem dataType_immutable (a : NDAttribute) (op : Op) (ha : a.dataType_ ≠ NDAttrUndefined) :
    (∀ b, op.run a = some b → b.dataType_ = a.dataType_) ∧
    (op.raw = false → ∃ b, op.run a = some b) := by
  cases op with
  | setDataType type =>
      refine ⟨fun b hb => ?_, fun _ => ⟨_, rfl⟩⟩
      simp only [Op.run, Option.some.injEq] at hb
      subst hb; exact setDataType_dataType_of_typed a type ha
  | setValue pValue =>
      refine ⟨fun b hb => ?_, fun hraw => by simp [Op.raw] at hraw⟩
      simp only [Op.run, Option.map_eq_some'] at hb
      obtain ⟨r, hr, rfl⟩ := hb
      exact setValue_dataType a pValue r hr
  | setValue_string value =>
      refine ⟨fun b hb => ?_, fun _ => ⟨_, rfl⟩⟩
      simp only [Op.run, Option.some.injEq] at hb
      subst hb; exact setValue_string_dataType a value
  | setValue_vector T value =>
      refine ⟨fun b hb => ?_, fun _ => ⟨_, rfl⟩⟩
      simp only [Op.run, Option.some.injEq] at hb
      subst hb; exact setValue_vector_dataType T a value
  | getName => exact ⟨fun b hb => by cases hb; rfl, fun _ => ⟨_, rfl⟩⟩
  | getDataType => exact ⟨fun b hb => by cases hb; rfl, fun _ => ⟨_, rfl⟩⟩
  | getDescription => exact ⟨fun b hb => by cases hb; rfl, fun _ => ⟨_, rfl⟩⟩
  | getSource => exact ⟨fun b hb => by cases hb; rfl, fun _ => ⟨_, rfl⟩⟩
  | getSourceInfo => exact ⟨fun b hb => by cases hb; rfl, fun _ => ⟨_, rfl⟩⟩
  | getValueInfo pSize =>
      refine ⟨fun b hb => ?_, fun _ => ⟨_, rfl⟩⟩
      simp only [Op.run, Option.some.injEq] at hb
      subst hb; rw [getValueInfo_state]
  | getValue dataType pValue dataSize =>
      refine ⟨fun b hb => ?_, fun hraw => by simp [Op.raw] at hraw⟩
      simp only [Op.run, Option.map_eq_some'] at hb
      obtain ⟨r, hr, rfl⟩ := hb
      rw [getValue_state a dataType pValue dataSize r hr]
  | getValue_string value =>
      refine ⟨fun b hb => ?_, fun _ => ⟨_, rfl⟩⟩
      simp only [Op.run, Option.some.injEq] at hb
      subst hb; rw [getValue_string_state]
  | getValue_vector T value =>
      refine ⟨fun b hb => ?_, fun _ => ⟨_, rfl⟩⟩
      simp only [Op.run, Option.some.injEq] at hb
      subst hb; rw [getValue_vector_state]
  | updateValue => exact ⟨fun b hb => by cases hb; rfl, fun _ => ⟨_, rfl⟩⟩
  | copy pOut =>
      refine ⟨fun b hb => ?_, fun hraw => by simp [Op.raw] at hraw⟩
      simp only [Op.run, Option.map_eq_some'] at hb
      obtain ⟨r, hr, rfl⟩ := hb
      rw [copy_source_state a pOut r hr]
  | copyTarget other =>
      refine ⟨fun b hb => ?_, fun hraw => by simp [Op.raw] at hraw⟩
      simp only [Op.run, Option.map_eq_some'] at hb
      obtain ⟨r, hr, rfl⟩ := hb
      exact copy_target_dataType other a r hr

/-- Instance of C1: an Int32 attribute keeps its type under setDataType(NDAttrFloat64). -/
theorem dataType_immutable_witness :
    (∀ b, (Op.setDataType NDAttrFloat64).run int32Attr = some b →
        b.dataType_ = int32Attr.dataType_) ∧
    ((Op.setDataType NDAttrFloat64).raw = false →
        ∃ b, (Op.setDataType NDAttrFloat64).run int32Attr = some b) :=
  dataType_immutable int32Attr (Op.setDataType NDAttrFloat64) (by decide)

/-- C2: for every attribute and every data kind K other than Undefined for which setDataType(K)
returns ND_SUCCESS, a second setDataType(K) returns ND_SUCCESS and leaves every field of the
attribute unchanged, and setDataType(K2) for every K2 different from K returns ND_ERROR and
leaves every field unchanged. -/
theorem setDataType_twice (a : NDAttribute) (K : NDAttrDataType_t)
    (hK : K ≠ NDAttrUndefined) (hok : (a.setDataType K).1 = ND_SUCCESS) :
    (a.setDataType K).2.setDataType K = (ND_SUCCESS, (a.setDataType K).2) ∧
    ∀ K2 : NDAttrDataType_t, K2 ≠ K →
      (a.setDataType K).2.setDataType K2 = (ND_ERROR, (a.setDataType K).2) := by
  have hty := setDataType_dataType_of_success a K hok
  generalize (a.setDataType K).2 = b at hty ⊢
  subst hty
  exact ⟨setDataType_same b, fun K2 h2 => setDataType_other b K2 hK h2⟩

/-- Instance of C2: an untyped attribute typed as Int32, then typed again. -/
theorem setDataType_twice_witness :
    ((untyped.setDataType NDAttrInt32).2.setDataType NDAttrInt32
        = (ND_SUCCESS, (untyped.setDataType NDAttrInt32).2)) ∧
    ∀ K2 : NDAttrDataType_t, K2 ≠ NDAttrInt32 →
      (untyped.setDataType NDAttrInt32).2.setDataType K2
        = (ND_ERROR, (untyped.setDataType NDAttrInt32).2) :=
  setDataType_twice untyped NDAttrInt32 (by decide) (by decide)

/-! ## Scalar values -/

theorem castScalar_self (K : epicsType) (v : Int) (hv : K.holds v) : castScalar K K v = some v := by
  cases K <;>
    simp [castScalar, epicsType.isFloat, wrapInt, epicsType.isSigned, epicsType.bits,
      floatToFloat, epicsType.holds, epicsType.minVal, epicsType.maxVal] at hv ⊢ <;>
    omega

theorem construct_init_dataType (pName pDescription : Option String) (sourceType : NDAttrSource_t)
    (pSource : Option String) :
    (NDAttribute.construct_init pName pDescription sourceType pSource).dataType_
      = NDAttrUndefined := by
  unfold NDAttribute.construct_init
  split_ifs <;> rfl

/-- C3: scalar round trip. For every scalar kind K and every value v of the type of K, an
attribute constructed with dataType = K and a non-null pointer to v has data type K, and the
generic getValue(K, out) returns ND_SUCCESS and writes exactly v to out. -/
theorem scalar_round_trip (K : epicsType) (v : Int) (hv : K.holds v)
    (pName pDescription pSource : Option String) (sourceType : NDAttrSource_t)
    (out : Buffer) (dataSize : Nat) :
    ∃ a, NDAttribute.construct pName pDescription sourceType pSource (scalarKind K)
          (some (Pointee.scalar K v)) = some a ∧
      a.dataType_ = scalarKind K ∧
      a.getValue (scalarKind K) out dataSize = some (ND_SUCCESS, Buffer.scalar K v, a) := by
  have hc := castScalar_self K v hv
  have hi := construct_init_dataType pName pDescription sourceType pSource
  simp only [NDAttribute.construct]
  generalize NDAttribute.construct_init pName pDescription sourceType pSource = b at hi ⊢
  cases K <;>
    simp [NDAttribute.setDataType, NDAttribute.setValue, NDAttribute.getValue,
      NDAttribute.getValue_dispatch, NDAttribute.getValueT, derefScalar, scalarKind, hi,
      NDAttrValue.i8?, NDAttrValue.ui8?, NDAttrValue.i16?, NDAttrValue.ui16?, NDAttrValue.i32?,
      NDAttrValue.ui32?, NDAttrValue.i64?, NDAttrValue.ui64?, NDAttrValue.f32?, NDAttrValue.f64?,
      hc]

/-- Instance of C3: an Int32 attribute constructed from a pointer to 300. -/
theorem scalar_round_trip_witness :
    ∃ a, NDAttribute.construct (some "Gain") (some "Detector gain") NDAttrSourceDriver
          (some "GAIN") (scalarKind epicsType.Int32)
          (some (Pointee.scalar epicsType.Int32 300)) = some a ∧
      a.dataType_ = scalarKind epicsType.Int32 ∧
      a.getValue (scalarKind epicsType.Int32) (Buffer.chars []) 0
        = some (ND_SUCCESS, Buffer.scalar epicsType.Int32 300, a) :=
  scalar_round_trip epicsType.Int32 300 (by decide) (some "Gain") (some "Detector gain")
    (some "GAIN") NDAttrSourceDriver (Buffer.chars []) 0

/-- C4: the generic getValue does not convert. An Int32 attribute holding 300 read with
getValue(NDAttrUInt8) returns ND_ERROR and writes nothing, although getValueT for epicsUInt8
would store 44; a Float64 attribute holding 3.9 read with getValue(NDAttrInt32) returns
ND_ERROR and writes nothing, although getValueT for epicsInt32 would store 3. -/
theorem getValue_conversion_blocked :
    int32Attr.getValue NDAttrUInt8 (Buffer.chars []) 0
        = some (ND_ERROR, Buffer.chars [], int32Attr) ∧
    int32Attr.getValueT epicsType.UInt8 (Buffer.chars []) 0
        = some (ND_SUCCESS, Buffer.scalar epicsType.UInt8 44, int32Attr) ∧
    float64Attr.getValue NDAttrInt32 (Buffer.chars []) 0
        = some (ND_ERROR, Buffer.chars [], float64Attr) ∧
    float64Attr.getValueT epicsType.Int32 (Buffer.chars []) 0
        = some (ND_SUCCESS, Buffer.scalar epicsType.Int32 3, float64Attr) := by
  refine ⟨?_, ?_, ?_, ?_⟩ <;> rfl

/-! ## Sizes reported by getValueInfo -/

/-- C5: getValueInfo on a VecInt64 and on a VecUInt64 attribute holding five elements returns
ND_SUCCESS and the kind, and reports size 10 (five times the width of a 16-bit integer), not
the 40 bytes of five 64-bit elements. -/
theorem getValueInfo_vec64_size :
    vecInt64Attr.getValueInfo 0 = (ND_SUCCESS, NDAttrVecInt64, 10, vecInt64Attr) ∧
    vecUInt64Attr.getValueInfo 0 = (ND_SUCCESS, NDAttrVecUInt64, 10, vecUInt64Attr) := by
  refine ⟨?_, ?_⟩ <;> rfl

/-- C6: scalar, string and undefined byte size. getValueInfo reports the stored data type and a
size of 1, 1, 2, 2, 4, 4, 8, 8, 4, 8 for the scalar kinds Int8, UInt8, Int16, UInt16, Int32,
UInt32, Int64, UInt64, Float32, Float64 (whatever the stored value), of the length of the stored
string plus 1 for String, and of 0 for Undefined. -/
theorem getValueInfo_scalar_string_undefined (a : NDAttribute) (pSize : Nat) :
    (a.dataType_ = NDAttrInt8 → a.getValueInfo pSize = (ND_SUCCESS, NDAttrInt8, 1, a)) ∧
    (a.dataType_ = NDAttrUInt8 → a.getValueInfo pSize = (ND_SUCCESS, NDAttrUInt8, 1, a)) ∧
    (a.dataType_ = NDAttrInt16 → a.getValueInfo pSize = (ND_SUCCESS, NDAttrInt16, 2, a)) ∧
    (a.dataType_ = NDAttrUInt16 → a.getValueInfo pSize = (ND_SUCCESS, NDAttrUInt16, 2, a)) ∧
    (a.dataType_ = NDAttrInt32 → a.getValueInfo pSize = (ND_SUCCESS, NDAttrInt32, 4, a)) ∧
    (a.dataType_ = NDAttrUInt32 → a.getValueInfo pSize = (ND_SUCCESS, NDAttrUInt32, 4, a)) ∧
    (a.dataType_ = NDAttrInt64 → a.getValueInfo pSize = (ND_SUCCESS, NDAttrInt64, 8, a)) ∧
    (a.dataType_ = NDAttrUInt64 → a.getValueInfo pSize = (ND_SUCCESS, NDAttrUInt64, 8, a)) ∧
    (a.dataType_ = NDAttrFloat32 → a.getValueInfo pSize = (ND_SUCCESS, NDAttrFloat32, 4, a)) ∧
    (a.dataType_ = NDAttrFloat64 → a.getValueInfo pSize = (ND_SUCCESS, NDAttrFloat64, 8, a)) ∧
    (a.dataType_ = NDAttrString →
      a.getValueInfo pSize = (ND_SUCCESS, NDAttrString, a.string_.length + 1, a)) ∧
    (a.dataType_ = NDAttrUndefined →
      a.getValueInfo pSize = (ND_SUCCESS, NDAttrUndefined, 0, a)) := by
  refine ⟨?_, ?_, ?_, ?_, ?_, ?_, ?_, ?_, ?_, ?_, ?_, ?_⟩ <;> intro h <;>
    simp only [NDAttribute.getValueInfo, h] <;> simp [epicsType.sizeof]

/-- Instances of C6: the string "abc" reports size 4, the empty string size 1, an Int32 size 4
and an untyped attribute size 0. -/
theorem getValueInfo_scalar_string_undefined_witness :
    stringAttr.getValueInfo 0 = (ND_SUCCESS, NDAttrString, 4, stringAttr) ∧
    ({ stringAttr with string_ := "" } : NDAttribute).getValueInfo 0
      = (ND_SUCCESS, NDAttrString, 1, { stringAttr with string_ := "" }) ∧
    int32Attr.getValueInfo 0 = (ND_SUCCESS, NDAttrInt32, 4, int32Attr) ∧
    untyped.getValueInfo 7 = (ND_SUCCESS, NDAttrUndefined, 0, untyped) :=
  ⟨(getValueInfo_scalar_string_undefined stringAttr 0).2.2.2.2.2.2.2.2.2.2.1 rfl,
   (getValueInfo_scalar_string_undefined { stringAttr with string_ := "" } 0).2.2.2.2.2.2.2.2.2.2.1
     rfl,
   (getValueInfo_scalar_string_undefined int32Attr 0).2.2.2.2.1 rfl,
   (getValueInfo_scalar_string_undefined untyped 7).2.2.2.2.2.2.2.2.2.2.2 rfl⟩

/-! ## Typed getters and setters -/

theorem vectorKind_injective (T U : epicsType) (h : vectorKind T = vectorKind U) : T = U := by
  cases T <;> cases U <;> first | rfl | (simp [vectorKind] at h)

theorem getValue_vector_eq (T : epicsType) (a : NDAttribute) (value : List Int) :
    NDAttribute.getValue_vector T a value =
      if a.dataType_ = vectorKind T then (ND_SUCCESS, a.vector_.get T, a)
      else (ND_ERROR, value, a) := by
  cases T <;> rfl

/-- C7: typed getters require an exact kind match. For every attribute state,
getValue(std::string&) returns ND_SUCCESS iff the data type is String, and
getValue(std::vector<T>&) returns ND_SUCCESS iff the data type is the vector kind whose element
type is T, for each of the ten element types; on success the output equals the stored string or
stored vector, on failure the output argument is left as it was, and in both cases the state of
the attribute is unchanged. -/
theorem typed_getters_exact_kind (a : NDAttribute) :
    (∀ value : String,
      ((a.getValue_string value).1 = ND_SUCCESS ↔ a.dataType_ = NDAttrString) ∧
      (a.dataType_ = NDAttrString → a.getValue_string value = (ND_SUCCESS, a.string_, a)) ∧
      (a.dataType_ ≠ NDAttrString → a.getValue_string value = (ND_ERROR, value, a))) ∧
    (∀ (T : epicsType) (value : List Int),
      ((NDAttribute.getValue_vector T a value).1 = ND_SUCCESS ↔ a.dataType_ = vectorKind T) ∧
      (a.dataType_ = vectorKind T →
        NDAttribute.getValue_vector T a value = (ND_SUCCESS, a.vector_.get T, a)) ∧
      (a.dataType_ ≠ vectorKind T →
        NDAttribute.getValue_vector T a value = (ND_ERROR, value, a))) := by
  constructor
  · intro value
    simp only [NDAttribute.getValue_string, NDAttrString_eq]
    by_cases h : a.dataType_ = 10 <;> simp [h]
  · intro T value
    rw [getValue_vector_eq]
    by_cases h : a.dataType_ = vectorKind T
    · simp only [if_pos h]; simp [h]
    · simp only [if_neg h]; simp [h]

/-- Instance of C7: a VecInt8 attribute rejects getValue(std::vector<epicsFloat64>&), leaving
the output and the attribute as they were, and answers getValue(std::vector<epicsInt8>&) with
its stored vector. -/
theorem typed_getters_exact_kind_witness :
    NDAttribute.getValue_vector epicsType.Float64 vecInt8Attr [7] = (ND_ERROR, [7], vecInt8Attr) ∧
    NDAttribute.getValue_vector epicsType.Int8 vecInt8Attr [7]
      = (ND_SUCCESS, [1, -2, 3], vecInt8Attr) :=
  ⟨((typed_getters_exact_kind vecInt8Attr).2 epicsType.Float64 [7]).2.2 (by decide),
   ((typed_getters_exact_kind vecInt8Attr).2 epicsType.Int8 [7]).2.1 (by decide)⟩

theorem setValue_vector_eq (T : epicsType) (a : NDAttribute) (value : List Int) :
    NDAttribute.setValue_vector T a value =
      if a.dataType_ = vectorKind T then
        (ND_SUCCESS, { a with vector_ := a.vector_.set T value })
      else (ND_ERROR, a) := by
  cases T <;> rfl

theorem NDAttrVecValue.get_set (w : NDAttrVecValue) (T : epicsType) (xs : List Int) :
    (w.set T xs).get T = xs := by
  cases T <;> rfl

theorem NDAttrVecValue.get_set_of_ne (w : NDAttrVecValue) (T U : epicsType) (xs : List Int)
    (h : U ≠ T) : (w.set T xs).get U = w.get U := by
  cases T <;> cases U <;> first | rfl | exact absurd rfl h

/-- C8: typed setters require an exact kind match and are atomic on failure. For every attribute
state, setValue(const std::string&) returns ND_SUCCESS iff the data type is String, and
setValue(std::vector<T>&) returns ND_SUCCESS iff the data type is the vector kind with element
type T, for each of the ten element types; the only other return value is ND_ERROR, and when the
call returns ND_ERROR every field of the attribute is unchanged. -/
theorem typed_setters_exact_kind (a : NDAttribute) :
    (∀ value : String,
      ((a.setValue_string value).1 = ND_SUCCESS ↔ a.dataType_ = NDAttrString) ∧
      ((a.setValue_string value).1 = ND_SUCCESS ∨ (a.setValue_string value).1 = ND_ERROR) ∧
      ((a.setValue_string value).1 = ND_ERROR → (a.setValue_string value).2 = a)) ∧
    (∀ (T : epicsType) (value : List Int),
      ((NDAttribute.setValue_vector T a value).1 = ND_SUCCESS ↔ a.dataType_ = vectorKind T) ∧
      ((NDAttribute.setValue_vector T a value).1 = ND_SUCCESS ∨
        (NDAttribute.setValue_vector T a value).1 = ND_ERROR) ∧
      ((NDAttribute.setValue_vector T a value).1 = ND_ERROR →
        (NDAttribute.setValue_vector T a value).2 = a)) := by
  constructor
  · intro value
    simp only [NDAttribute.setValue_string, NDAttrString_eq]
    by_cases h : a.dataType_ = 10 <;> simp [h]
  · intro T value
    rw [setValue_vector_eq]
    by_cases h : a.dataType_ = vectorKind T
    · simp only [if_pos h]; simp [h]
    · simp only [if_neg h]; simp [h]

/-- Instance of C8: a VecInt8 attribute rejects setValue(std::vector<epicsFloat64>&) and
setValue(const std::string&) and stays as it was. -/
theorem typed_setters_exact_kind_witness :
    (NDAttribute.setValue_vector epicsType.Float64 vecInt8Attr [7]).2 = vecInt8Attr ∧
    (vecInt8Attr.setValue_string "x").2 = vecInt8Attr :=
  ⟨((typed_setters_exact_kind vecInt8Attr).2 epicsType.Float64 [7]).2.2 (by decide),
   ((typed_setters_exact_kind vecInt8Attr).1 "x").2.2 (by decide)⟩

/-- C9: vector set/get round trip with wholesale replacement. For every vector kind with
element type T, every attribute of that kind (whatever vector it held before) and every sequence
w, setValue(w) returns ND_SUCCESS and a following getValue(std::vector<T>&) returns ND_SUCCESS
with output exactly w; the other nine vector slots, the scalar slot and the string are
unchanged. -/
theorem vector_set_get_round_trip (T : epicsType) (a : NDAttribute) (w out : List Int)
    (h : a.dataType_ = vectorKind T) :
    (NDAttribute.setValue_vector T a w).1 = ND_SUCCESS ∧
    NDAttribute.getValue_vector T (NDAttribute.setValue_vector T a w).2 out
      = (ND_SUCCESS, w, (NDAttribute.setValue_vector T a w).2) ∧
    (∀ U : epicsType, U ≠ T →
      (NDAttribute.setValue_vector T a w).2.vector_.get U = a.vector_.get U) ∧
    (NDAttribute.setValue_vector T a w).2.value_ = a.value_ ∧
    (NDAttribute.setValue_vector T a w).2.string_ = a.string_ := by
  rw [setValue_vector_eq, if_pos h, getValue_vector_eq]
  have h2 : ({ a with vector_ := a.vector_.set T w } : NDAttribute).dataType_ = vectorKind T := h
  rw [if_pos h2]
  exact ⟨rfl, by simp only [NDAttrVecValue.get_set], fun U hU =>
    NDAttrVecValue.get_set_of_ne a.vector_ T U w hU, rfl, rfl⟩

/-- Instance of C9: a VecInt8 attribute holding three elements is given two other elements. -/
theorem vector_set_get_round_trip_witness :
    (NDAttribute.setValue_vector epicsType.Int8 vecInt8Attr [5, 6]).1 = ND_SUCCESS ∧
    NDAttribute.getValue_vector epicsType.Int8
        (NDAttribute.setValue_vector epicsType.Int8 vecInt8Attr [5, 6]).2 [9]
      = (ND_SUCCESS, [5, 6], (NDAttribute.setValue_vector epicsType.Int8 vecInt8Attr [5, 6]).2) ∧
    (∀ U : epicsType, U ≠ epicsType.Int8 →
      (NDAttribute.setValue_vector epicsType.Int8 vecInt8Attr [5, 6]).2.vector_.get U
        = vecInt8Attr.vector_.get U) ∧
    (NDAttribute.setValue_vector epicsType.Int8 vecInt8Attr [5, 6]).2.value_
      = vecInt8Attr.value_ ∧
    (NDAttribute.setValue_vector epicsType.Int8 vecInt8Attr [5, 6]).2.string_
      = vecInt8Attr.string_ :=
  vector_set_get_round_trip epicsType.Int8 vecInt8Attr [5, 6] [9] (by decide)

/-! ## Generic read of a vector -/

/-- C10: the generic getValue(NDAttrVecInt32, buffer, 0) on a VecInt32 attribute holding three
elements copies the three elements into the buffer and then returns ND_ERROR, not
ND_SUCCESS. -/
theorem getValue_vector_kind_returns_error :
    vecInt32Attr.getValue NDAttrVecInt32 (Buffer.chars []) 0
      = some (ND_ERROR, Buffer.array epicsType.Int32 [10, 20, 30] 0, vecInt32Attr) := by
  rfl

/-! ## Generic read of a string -/

theorem cstr_eq_self (s : String) (h : ∀ c ∈ s.data, c ≠ Char.ofNat 0) : cstr s = s := by
  have : s.data.takeWhile (fun c => c != Char.ofNat 0) = s.data := by
    rw [List.takeWhile_eq_self_iff]
    intro c hc
    simpa using h c hc
  simp only [cstr, this]

theorem getValue_string_eq (a : NDAttribute) (out : Buffer) (dataSize : Nat)
    (h : a.dataType_ = NDAttrString) :
    a.getValue NDAttrString out dataSize
      = some (ND_SUCCESS,
          Buffer.chars (strncpy a.string_ (stringReadSize a.string_.length dataSize)),
          a) := by
  simp only [NDAttribute.getValue, h, stringReadSize]
  simp

/-- C11: generic read of a string. For every String attribute holding s (s without a zero byte)
and every dataSize, the generic getValue(String, buffer, dataSize) returns ND_SUCCESS and writes
exactly m bytes to the buffer, where m = length(s) + 1 when dataSize = 0 and m = dataSize
otherwise; the bytes written are the first min(m, length(s)) bytes of s followed by zero bytes up
to m, so with dataSize = 0 the output is s plus one terminating zero, and with
0 < dataSize ≤ length(s) the output is a prefix of s with no terminating zero. -/
theorem getValue_string_bytes (a : NDAttribute) (out : Buffer) (dataSize : Nat)
    (h : a.dataType_ = NDAttrString) (hz : ∀ c ∈ a.string_.data, c ≠ Char.ofNat 0) :
    ∃ written : List Char,
      a.getValue NDAttrString out dataSize = some (ND_SUCCESS, Buffer.chars written, a) ∧
      written.length = stringReadSize a.string_.length dataSize ∧
      written = a.string_.data.take (min (stringReadSize a.string_.length dataSize) a.string_.length)
        ++ List.replicate
            (stringReadSize a.string_.length dataSize
              - min (stringReadSize a.string_.length dataSize) a.string_.length)
            (Char.ofNat 0) ∧
      (dataSize = 0 → written = a.string_.data ++ [Char.ofNat 0]) ∧
      (0 < dataSize → dataSize ≤ a.string_.length → written = a.string_.data.take dataSize) := by
  have hl : a.string_.data.length = a.string_.length := rfl
  refine ⟨_, getValue_string_eq a out dataSize h, ?_, ?_, ?_, ?_⟩
  all_goals simp only [strncpy, cstr_eq_self _ hz]
  · simp only [List.length_append, List.length_take, List.length_replicate, hl]; omega
  · generalize stringReadSize a.string_.length dataSize = m
    rw [hl]
    have e1 : List.take (m ⊓ a.string_.length) a.string_.data = List.take m a.string_.data := by
      rcases Nat.le_total m a.string_.length with hm | hm
      · rw [Nat.min_eq_left hm]
      · have hm2 : a.string_.data.length ≤ m := hm
        rw [Nat.min_eq_right hm, List.take_of_length_le hm2,
          List.take_of_length_le (Nat.le_of_eq hl)]
    have e2 : m - m ⊓ a.string_.length = m - a.string_.length := by omega
    rw [e1, e2]
  · intro h0
    have e : stringReadSize a.string_.length dataSize = a.string_.data.length + 1 := by
      simp only [stringReadSize, h0, if_true, hl]
    rw [e, hl, List.take_of_length_le (by omega)]
    have e3 : a.string_.length + 1 - a.string_.length = 1 := by omega
    rw [e3]; rfl
  · intro h0 hle
    have e : stringReadSize a.string_.length dataSize = dataSize := by
      simp only [stringReadSize]; rw [if_neg (by omega)]
    rw [e, hl, Nat.sub_eq_zero_of_le hle]
    simp

/-- Instance of C11: "abc" read with dataSize 2 gives the two bytes "ab". -/
theorem getValue_string_bytes_witness :
    ∃ written : List Char,
      stringAttr.getValue NDAttrString (Buffer.chars []) 2
        = some (ND_SUCCESS, Buffer.chars written, stringAttr) ∧
      written.length = stringReadSize stringAttr.string_.length 2 ∧
      written = stringAttr.string_.data.take
          (min (stringReadSize stringAttr.string_.length 2) stringAttr.string_.length)
        ++ List.replicate
            (stringReadSize stringAttr.string_.length 2
              - min (stringReadSize stringAttr.string_.length 2) stringAttr.string_.length)
            (Char.ofNat 0) ∧
      ((2 : Nat) = 0 → written = stringAttr.string_.data ++ [Char.ofNat 0]) ∧
      (0 < 2 → 2 ≤ stringAttr.string_.length → written = stringAttr.string_.data.take 2) :=
  getValue_string_bytes stringAttr (Buffer.chars []) 2 rfl (by decide)

/-! ## Writes to an untyped attribute -/

theorem setValue_of_undefined (a : NDAttribute) (pValue : VoidPtr)
    (h : a.dataType_ = NDAttrUndefined) : a.setValue pValue = some (ND_SUCCESS, a) := by
  simp only [NDAttribute.setValue, h]
  simp

/-- C12, as the code has it: for every attribute whose data type is Undefined, setValue(pValue)
returns ND_SUCCESS for a null and for a non-null pointer alike, and every field of the attribute
is unchanged. -/
theorem setValue_untyped_is_noop (a : NDAttribute) (pValue : VoidPtr)
    (h : a.dataType_ = NDAttrUndefined) :
    a.setValue none = some (ND_SUCCESS, a) ∧ a.setValue pValue = some (ND_SUCCESS, a) :=
  ⟨setValue_of_undefined a none h, setValue_of_undefined a pValue h⟩

/-- Instance of the amended C12 on an untyped attribute and a pointer to an Int32. -/
theorem setValue_untyped_is_noop_witness :
    untyped.setValue none = some (ND_SUCCESS, untyped) ∧
    untyped.setValue (some (Pointee.scalar epicsType.Int32 5)) = some (ND_SUCCESS, untyped) :=
  setValue_untyped_is_noop untyped (some (Pointee.scalar epicsType.Int32 5)) (by decide)

/-- Counterexample to C12: on an untyped attribute, setValue with a non-null pointer does not
return ND_ERROR. -/
theorem setValue_untyped_nonnull_not_error :
    untyped.dataType_ = NDAttrUndefined ∧
    ∃ r, untyped.setValue (some (Pointee.scalar epicsType.Int32 5)) = some r ∧
      r.1 ≠ ND_ERROR :=
  ⟨rfl, (ND_SUCCESS, untyped), rfl, by decide⟩

/-! ## Kinds accepted by setDataType -/

theorem setDataType_of_undefined_in_range (a : NDAttribute) (K : NDAttrDataType_t)
    (h : a.dataType_ = NDAttrUndefined) (hlo : NDAttrInt8 ≤ K) (hhi : K ≤ NDAttrVecFloat64) :
    a.setDataType K = (ND_SUCCESS, { a with dataType_ := K }) := by
  simp only [NDAttrInt8_eq, NDAttrVecFloat64_eq, NDAttrUndefined_eq] at h hlo hhi
  have h1 : ¬ K = 21 := by
    intro hk; rw [hk] at hhi; exact absurd hhi (by decide)
  have h2 : ¬ (K < 0 ∨ 20 < K) := by
    rintro (hk | hk)
    · exact absurd hlo (not_le.mpr hk)
    · exact absurd hhi (not_le.mpr hk)
  simp [NDAttribute.setDataType, h, h1, h2]

/-- C13, as the code has it: on an untyped (Undefined) attribute, setDataType(K) returns
ND_SUCCESS and fixes the data type to K for each of the ten scalar kinds, for String and for each
of the ten vector kinds. -/
theorem setDataType_accepts_all_kinds (a : NDAttribute) (h : a.dataType_ = NDAttrUndefined) :
    (∀ T : epicsType,
      a.setDataType (scalarKind T) = (ND_SUCCESS, { a with dataType_ := scalarKind T })) ∧
    a.setDataType NDAttrString = (ND_SUCCESS, { a with dataType_ := NDAttrString }) ∧
    (∀ T : epicsType,
      a.setDataType (vectorKind T) = (ND_SUCCESS, { a with dataType_ := vectorKind T })) := by
  refine ⟨fun T => ?_, ?_, fun T => ?_⟩
  · apply setDataType_of_undefined_in_range a _ h <;> cases T <;> simp [scalarKind]
  · apply setDataType_of_undefined_in_range a _ h <;> simp
  · apply setDataType_of_undefined_in_range a _ h <;> cases T <;> simp [vectorKind]

/-- Instance of the amended C13 on an untyped attribute. -/
theorem setDataType_accepts_all_kinds_witness :
    (∀ T : epicsType,
      untyped.setDataType (scalarKind T)
        = (ND_SUCCESS, { untyped with dataType_ := scalarKind T })) ∧
    untyped.setDataType NDAttrString = (ND_SUCCESS, { untyped with dataType_ := NDAttrString }) ∧
    (∀ T : epicsType,
      untyped.setDataType (vectorKind T)
        = (ND_SUCCESS, { untyped with dataType_ := vectorKind T })) :=
  setDataType_accepts_all_kinds untyped (by decide)

/-- Counterexample to C13: on an untyped attribute, setDataType(String) and
setDataType(VecFloat64) return ND_SUCCESS and fix the data type, not ND_ERROR. -/
theorem setDataType_string_vector_accepted :
    untyped.dataType_ = NDAttrUndefined ∧
    (untyped.setDataType NDAttrString).1 ≠ ND_ERROR ∧
    (untyped.setDataType NDAttrString).2.dataType_ ≠ NDAttrUndefined ∧
    (untyped.setDataType NDAttrVecFloat64).1 ≠ ND_ERROR ∧
    (untyped.setDataType NDAttrVecFloat64).2.dataType_ ≠ NDAttrUndefined := by
  decide

/-- C14, as the code has it: for every attribute state (typed or untyped) and every kind value
outside the accepted range of setDataType (below NDAttrInt8 or above NDAttrVecFloat64), the
attribute is left unchanged, and setDataType returns ND_ERROR unless the kind equals the stored
data type, in which case it returns ND_SUCCESS. -/
theorem setDataType_out_of_range (a : NDAttribute) (K : NDAttrDataType_t)
    (hK : K < NDAttrInt8 ∨ NDAttrVecFloat64 < K) :
    (K ≠ a.dataType_ → a.setDataType K = (ND_ERROR, a)) ∧
    (K = a.dataType_ → a.setDataType K = (ND_SUCCESS, a)) := by
  simp only [NDAttrInt8_eq, NDAttrVecFloat64_eq] at hK
  constructor
  · intro hne
    simp [NDAttribute.setDataType, hne, hK]
  · intro he
    simp [NDAttribute.setDataType, he]

/-- Instance of the amended C14: kind 99 on an untyped attribute, and NDAttrUndefined on an
Int32 attribute. -/
theorem setDataType_out_of_range_witness :
    untyped.setDataType 99 = (ND_ERROR, untyped) ∧
    int32Attr.setDataType NDAttrUndefined = (ND_ERROR, int32Attr) :=
  ⟨(setDataType_out_of_range untyped 99 (by decide)).1 (by decide),
   (setDataType_out_of_range int32Attr NDAttrUndefined (by decide)).1 (by decide)⟩

/-- Counterexample to C14: NDAttrUndefined lies above NDAttrVecFloat64, and on an untyped
attribute setDataType(NDAttrUndefined) returns ND_SUCCESS, not ND_ERROR. -/
theorem setDataType_undefined_on_untyped :
    NDAttrVecFloat64 < NDAttrUndefined ∧
    untyped.setDataType NDAttrUndefined = (ND_SUCCESS, untyped) ∧
    (untyped.setDataType NDAttrUndefined).1 ≠ ND_ERROR := by
  decide

/-! ## Copies -/

theorem setValue_string_kind (t : NDAttribute) (s : String) (h : t.dataType_ = NDAttrString) :
    t.setValue (some (Pointee.chars s)) = some (ND_SUCCESS, { t with string_ := cstr s }) := by
  simp only [NDAttribute.setValue, h]
  simp only [NDAttrString_eq, NDAttrUndefined_eq, derefCString]
  by_cases hs : t.string_ = cstr s
  · simp [hs]
    cases t
    simp_all
  · simp [hs]

theorem setValue_scalar_kind (t : NDAttribute) (K : epicsType) (p : VoidPtr) (v : Int)
    (h : t.dataType_ = scalarKind K) (hp : derefScalar K p = some v) :
    t.setValue p = some (ND_SUCCESS, { t with value_ := NDAttrValue.ofScalar K v }) := by
  have hn : p ≠ none := by
    rintro rfl; simp [derefScalar] at hp
  cases K <;> simp only [scalarKind] at h <;> simp only [NDAttribute.setValue, h] <;>
    simp [hn, hp, NDAttrValue.ofScalar]

/-- On a vector attribute, `setValue` with the address of a scalar union reads the union as a
vector: no defined result. -/
theorem setValue_vector_kind_value (t : NDAttribute) (K : epicsType) (u : NDAttrValue)
    (h : t.dataType_ = vectorKind K) :
    t.setValue (some (Pointee.value u)) = none := by
  cases K <;> simp only [vectorKind] at h <;> simp only [NDAttribute.setValue, h] <;>
    simp [derefVector]


theorem scalarKind_ne_string (K : epicsType) : scalarKind K ≠ NDAttrString := by
  cases K <;> simp [scalarKind]

theorem NDAttrValue.read_ofScalar (K : epicsType) (v : Int) :
    (NDAttrValue.ofScalar K v).read K = some v := by
  cases K <;> rfl

/-- C15, as the code has it: for every attribute a whose data type is a scalar kind and whose
union holds a value of that kind, or String with a stored string free of zero bytes, or
Undefined, copy(NULL) (the copy constructor) yields a new attribute whose name, description,
source string, source type, source type string and data type equal those of a, and whose active
payload equals that of a (the scalar value for scalar kinds, the string for String); a itself is
unchanged. For a String attribute in general the copy holds the stored string up to its first
zero byte. -/
theorem copy_null_scalar_string (a : NDAttribute) :
    (∀ (K : epicsType) (v : Int), a.dataType_ = scalarKind K → a.value_.read K = some v →
      ∃ c, a.copy none = some (c, a) ∧ sameIdentity c a ∧ c.dataType_ = a.dataType_ ∧
        c.value_.read K = some v) ∧
    (a.dataType_ = NDAttrString →
      ∃ c, a.copy none = some (c, a) ∧ sameIdentity c a ∧ c.dataType_ = a.dataType_ ∧
        c.string_ = cstr a.string_ ∧
        ((∀ ch ∈ a.string_.data, ch ≠ Char.ofNat 0) → c.string_ = a.string_)) ∧
    (a.dataType_ = NDAttrUndefined →
      ∃ c, a.copy none = some (c, a) ∧ sameIdentity c a ∧ c.dataType_ = a.dataType_) := by
  refine ⟨fun K v hK hv => ?_, fun hS => ?_, fun hU => ?_⟩
  · have hne := scalarKind_ne_string K
    simp only [NDAttribute.copy, NDAttribute.copyConstruct, hK, if_neg hne]
    rw [setValue_scalar_kind _ K _ v rfl (by simpa [derefScalar] using hv)]
    exact ⟨_, rfl, ⟨rfl, rfl, rfl, rfl, rfl⟩, rfl, NDAttrValue.read_ofScalar K v⟩
  · simp only [NDAttribute.copy, NDAttribute.copyConstruct, hS, if_true]
    rw [setValue_string_kind _ _ rfl]
    exact ⟨_, rfl, ⟨rfl, rfl, rfl, rfl, rfl⟩, rfl, rfl, fun hz => cstr_eq_self _ hz⟩
  · have hne : ¬ (NDAttrUndefined = NDAttrString) := by decide
    simp only [NDAttribute.copy, NDAttribute.copyConstruct, hU, if_neg hne]
    rw [setValue_of_undefined _ _ rfl]
    exact ⟨_, rfl, ⟨rfl, rfl, rfl, rfl, rfl⟩, rfl⟩

/-- Instance of the amended C15: the copies of an Int32 attribute holding 300 and of a String
attribute holding "abc". -/
theorem copy_null_scalar_string_witness :
    (∃ c, int32Attr.copy none = some (c, int32Attr) ∧ sameIdentity c int32Attr ∧
      c.dataType_ = int32Attr.dataType_ ∧ c.value_.read epicsType.Int32 = some 300) ∧
    (∃ c, stringAttr.copy none = some (c, stringAttr) ∧ sameIdentity c stringAttr ∧
      c.dataType_ = stringAttr.dataType_ ∧ c.string_ = cstr stringAttr.string_ ∧
      ((∀ ch ∈ stringAttr.string_.data, ch ≠ Char.ofNat 0) → c.string_ = stringAttr.string_)) :=
  ⟨(copy_null_scalar_string int32Attr).1 epicsType.Int32 300 rfl rfl,
   (copy_null_scalar_string stringAttr).2.1 rfl⟩

/-- Counterexample to C15: the copy of a String attribute whose stored string has a zero byte
holds a different string. -/
theorem copy_null_string_with_zero_byte :
    zeroByteStringAttr.dataType_ = NDAttrString ∧
    ∃ c, zeroByteStringAttr.copy none = some (c, zeroByteStringAttr) ∧
      c.string_ ≠ zeroByteStringAttr.string_ :=
  ⟨rfl, { zeroByteStringAttr with string_ := "a" }, rfl, by decide⟩

/-- C16: copy(NULL) on a VecInt8 attribute holding three elements hands the address of the scalar
union to setValue, which reads it as a vector: the call has no defined result, and no copy
holding the three elements is produced. -/
theorem copy_null_vector_undefined :
    vecInt8Attr.dataType_ = vectorKind epicsType.Int8 ∧
    vecInt8Attr.copy none = none ∧
    NDAttribute.copyConstruct vecInt8Attr = none := by
  refine ⟨rfl, rfl, rfl⟩


theorem setValue_identity (a : NDAttribute) (p : VoidPtr) (r : Int × NDAttribute)
    (h : a.setValue p = some r) : sameIdentity r.2 a := by
  revert h
  rcases dataType_cases a.dataType_ with
    h | h | h | h | h | h | h | h | h | h | h | h | h | h | h | h | h | h | h | h | h | h | h
  all_goals simp only [NDAttribute.setValue, h]
  all_goals simp
  all_goals intro hr
  all_goals repeat' split at hr
  all_goals first
    | (simp only [Option.some.injEq] at hr; subst hr; exact ⟨rfl, rfl, rfl, rfl, rfl⟩)
    | (simp only [Option.map_eq_some'] at hr; obtain ⟨v, -, rfl⟩ := hr
       exact ⟨rfl, rfl, rfl, rfl, rfl⟩)
    | (subst hr; exact ⟨rfl, rfl, rfl, rfl, rfl⟩)
    | (simp at hr)

/-- C17, as the code has it: whenever a.copy(t) has a defined result, it returns t, leaves the
name, description, source string, source type, source type string and data type of t unchanged
and leaves a unchanged. The result is defined, with the payload of t equal to that of a, when a
and t have the same scalar data type and the union of a holds a value of that type, and when
both are String, where t receives the string of a up to its first zero byte (the whole string
when it has none); on an Undefined target the call changes nothing. -/
theorem copy_into_target (a t : NDAttribute) :
    (∀ r, a.copy (some t) = some r →
      r.2 = a ∧ sameIdentity r.1 t ∧ r.1.dataType_ = t.dataType_) ∧
    (∀ (K : epicsType) (v : Int), t.dataType_ = scalarKind K → a.dataType_ = scalarKind K →
      a.value_.read K = some v →
      a.copy (some t) = some ({ t with value_ := NDAttrValue.ofScalar K v }, a)) ∧
    (t.dataType_ = NDAttrString → a.dataType_ = NDAttrString →
      a.copy (some t) = some ({ t with string_ := cstr a.string_ }, a) ∧
      ((∀ ch ∈ a.string_.data, ch ≠ Char.ofNat 0) →
        a.copy (some t) = some ({ t with string_ := a.string_ }, a))) ∧
    (t.dataType_ = NDAttrUndefined → a.copy (some t) = some (t, a)) := by
  refine ⟨fun r hr => ?_, fun K v ht ha hv => ?_, fun ht ha => ?_, fun ht => ?_⟩
  · simp only [NDAttribute.copy, Option.map_eq_some'] at hr
    obtain ⟨q, hq, rfl⟩ := hr
    exact ⟨rfl, setValue_identity _ _ _ hq, setValue_dataType _ _ _ hq⟩
  · have hne := scalarKind_ne_string K
    simp only [NDAttribute.copy, ha, if_neg hne]
    rw [setValue_scalar_kind t K _ v ht (by simpa [derefScalar] using hv)]
    rfl
  · have e : a.copy (some t) = some ({ t with string_ := cstr a.string_ }, a) := by
      simp only [NDAttribute.copy, ha, if_true]
      rw [setValue_string_kind t _ ht]
      rfl
    refine ⟨e, fun hz => ?_⟩
    rw [e, cstr_eq_self _ hz]
  · simp only [NDAttribute.copy]
    rw [setValue_of_undefined t _ ht]
    rfl

/-- Instance of the amended C17: an Int32 attribute holding 300 copied into an Int32 target. -/
theorem copy_into_target_witness :
    int32Attr.copy (some { int32Attr with value_ := NDAttrValue.i32 7, name_ := "Target" })
      = some ({ int32Attr with value_ := NDAttrValue.i32 300, name_ := "Target" }, int32Attr) :=
  (copy_into_target int32Attr { int32Attr with value_ := NDAttrValue.i32 7, name_ := "Target" }).2.1
    epicsType.Int32 300 rfl rfl rfl

/-- Counterexample to C17: a String source whose string has a zero byte leaves a String target
with a different string, and a VecInt8 source copied into a VecInt8 target has no defined
result. -/
theorem copy_into_target_fails :
    (zeroByteStringAttr.dataType_ = stringAttr.dataType_ ∧
      stringAttr.dataType_ = NDAttrString ∧
      ∃ r, zeroByteStringAttr.copy (some stringAttr) = some r ∧
        r.1.string_ ≠ zeroByteStringAttr.string_) ∧
    vecInt8Attr.copy (some vecInt8Attr) = none :=
  ⟨⟨rfl, rfl, ({ stringAttr with string_ := "a" }, zeroByteStringAttr), rfl, by decide⟩, rfl⟩

/-! ## Reads from an untyped attribute -/

/-- C18: reads from an untyped attribute all fail. For every attribute whose data type is
Undefined, getValueInfo reports (Undefined, 0), the generic getValue(R, out, n) returns ND_ERROR
for every requested kind R including Undefined, and getValue(std::string&) and all ten
getValue(std::vector<T>&) overloads return ND_ERROR; the outputs of the failing calls are left as
they were and none of these calls changes the attribute. -/
theorem reads_from_untyped (a : NDAttribute) (h : a.dataType_ = NDAttrUndefined) :
    (∀ pSize : Nat, a.getValueInfo pSize = (ND_SUCCESS, NDAttrUndefined, 0, a)) ∧
    (∀ (R : NDAttrDataType_t) (out : Buffer) (n : Nat),
      a.getValue R out n = some (ND_ERROR, out, a)) ∧
    (∀ value : String, a.getValue_string value = (ND_ERROR, value, a)) ∧
    (∀ (T : epicsType) (value : List Int),
      NDAttribute.getValue_vector T a value = (ND_ERROR, value, a)) := by
  refine ⟨fun pSize => ?_, fun R out n => ?_, fun value => ?_, fun T value => ?_⟩
  · simp only [NDAttribute.getValueInfo, h]; simp
  · by_cases hR : R = 21
    · subst hR
      simp only [NDAttribute.getValue, h]; simp
    · have hR2 : ¬ (21 : Int) = R := fun e => hR e.symm
      simp only [NDAttribute.getValue, h, NDAttrUndefined_eq]
      simp [hR2]
  · simp only [NDAttribute.getValue_string, h]; simp
  · cases T <;> simp only [NDAttribute.getValue_vector, h] <;> simp

/-- Instance of C18 on the untyped sample attribute. -/
theorem reads_from_untyped_witness :
    (∀ pSize : Nat, untyped.getValueInfo pSize = (ND_SUCCESS, NDAttrUndefined, 0, untyped)) ∧
    (∀ (R : NDAttrDataType_t) (out : Buffer) (n : Nat),
      untyped.getValue R out n = some (ND_ERROR, out, untyped)) ∧
    (∀ value : String, untyped.getValue_string value = (ND_ERROR, value, untyped)) ∧
    (∀ (T : epicsType) (value : List Int),
      NDAttribute.getValue_vector T untyped value = (ND_ERROR, value, untyped)) :=
  reads_from_untyped untyped (by decide)

/-! ## Reachable states -/

/-- The data type is one of the 22 enumerators of `NDAttrDataType_t`. -/
theorem enumerator_cases (t : Int) (h0 : NDAttrInt8 ≤ t) (h1 : t ≤ NDAttrUndefined) :
    t = NDAttrInt8 ∨ t = NDAttrUInt8 ∨ t = NDAttrInt16 ∨ t = NDAttrUInt16 ∨ t = NDAttrInt32 ∨
    t = NDAttrUInt32 ∨ t = NDAttrInt64 ∨ t = NDAttrUInt64 ∨ t = NDAttrFloat32 ∨
    t = NDAttrFloat64 ∨ t = NDAttrString ∨ t = NDAttrVecInt8 ∨ t = NDAttrVecUInt8 ∨
    t = NDAttrVecInt16 ∨ t = NDAttrVecUInt16 ∨ t = NDAttrVecInt32 ∨ t = NDAttrVecUInt32 ∨
    t = NDAttrVecInt64 ∨ t = NDAttrVecUInt64 ∨ t = NDAttrVecFloat32 ∨ t = NDAttrVecFloat64 ∨
    t = NDAttrUndefined := by
  have h0' : (0 : Int) ≤ t := h0
  have h1' : t ≤ (21 : Int) := h1
  simp only [NDAttrInt8_eq, NDAttrUInt8_eq, NDAttrInt16_eq, NDAttrUInt16_eq, NDAttrInt32_eq,
    NDAttrUInt32_eq, NDAttrInt64_eq, NDAttrUInt64_eq, NDAttrFloat32_eq, NDAttrFloat64_eq,
    NDAttrString_eq, NDAttrVecInt8_eq, NDAttrVecUInt8_eq, NDAttrVecInt16_eq, NDAttrVecUInt16_eq,
    NDAttrVecInt32_eq, NDAttrVecUInt32_eq, NDAttrVecInt64_eq, NDAttrVecUInt64_eq,
    NDAttrVecFloat32_eq, NDAttrVecFloat64_eq, NDAttrUndefined_eq]
  omega

theorem setDataType_enumerator (a : NDAttribute) (type : NDAttrDataType_t)
    (h : NDAttrInt8 ≤ a.dataType_ ∧ a.dataType_ ≤ NDAttrUndefined) :
    NDAttrInt8 ≤ (a.setDataType type).2.dataType_ ∧
      (a.setDataType type).2.dataType_ ≤ NDAttrUndefined := by
  unfold NDAttribute.setDataType
  split_ifs with h1 h2 h3
  · exact h
  · exact h
  · exact h
  · simp only [not_or, not_lt] at h3
    exact ⟨h3.1, le_trans h3.2 (by decide)⟩

theorem run_enumerator (op : Op) (a b : NDAttribute) (h : op.run a = some b)
    (ha : NDAttrInt8 ≤ a.dataType_ ∧ a.dataType_ ≤ NDAttrUndefined) :
    NDAttrInt8 ≤ b.dataType_ ∧ b.dataType_ ≤ NDAttrUndefined := by
  cases op with
  | setDataType type =>
      simp only [Op.run, Option.some.injEq] at h
      subst h; exact setDataType_enumerator a type ha
  | setValue pValue =>
      simp only [Op.run, Option.map_eq_some'] at h
      obtain ⟨r, hr, rfl⟩ := h
      rw [setValue_dataType a pValue r hr]; exact ha
  | setValue_string value =>
      simp only [Op.run, Option.some.injEq] at h
      subst h; rw [setValue_string_dataType]; exact ha
  | setValue_vector T value =>
      simp only [Op.run, Option.some.injEq] at h
      subst h; rw [setValue_vector_dataType]; exact ha
  | getName => cases h; exact ha
  | getDataType => cases h; exact ha
  | getDescription => cases h; exact ha
  | getSource => cases h; exact ha
  | getSourceInfo => cases h; exact ha
  | getValueInfo pSize =>
      simp only [Op.run, Option.some.injEq] at h
      subst h; rw [getValueInfo_state]; exact ha
  | getValue dataType pValue dataSize =>
      simp only [Op.run, Option.map_eq_some'] at h
      obtain ⟨r, hr, rfl⟩ := h
      rw [getValue_state a dataType pValue dataSize r hr]; exact ha
  | getValue_string value =>
      simp only [Op.run, Option.some.injEq] at h
      subst h; rw [getValue_string_state]; exact ha
  | getValue_vector T value =>
      simp only [Op.run, Option.some.injEq] at h
      subst h; rw [getValue_vector_state]; exact ha
  | updateValue => cases h; exact ha
  | copy pOut =>
      simp only [Op.run, Option.map_eq_some'] at h
      obtain ⟨r, hr, rfl⟩ := h
      rw [copy_source_state a pOut r hr]; exact ha
  | copyTarget other =>
      simp only [Op.run, Option.map_eq_some'] at h
      obtain ⟨r, hr, rfl⟩ := h
      rw [copy_target_dataType other a r hr]; exact ha

theorem reachable_enumerator (a : NDAttribute) (h : Reachable a) :
    NDAttrInt8 ≤ a.dataType_ ∧ a.dataType_ ≤ NDAttrUndefined := by
  induction h with
  | construct pName pDescription sourceType pSource dataType pValue a h =>
      have hi := construct_init_dataType pName pDescription sourceType pSource
      have hv : NDAttrInt8 ≤ (NDAttribute.construct_init pName pDescription sourceType
          pSource).dataType_ ∧ (NDAttribute.construct_init pName pDescription sourceType
          pSource).dataType_ ≤ NDAttrUndefined := by
        rw [hi]; decide
      simp only [NDAttribute.construct] at h
      split_ifs at h with hp
      · simp only [Option.map_eq_some'] at h
        obtain ⟨r, hr, rfl⟩ := h
        rw [setValue_dataType _ _ r hr]
        exact setDataType_enumerator _ dataType hv
      · simp only [Option.some.injEq] at h
        subst h; exact hv
  | copyConstruct other a r ho h ih =>
      simp only [NDAttribute.copyConstruct, Option.map_eq_some'] at h
      obtain ⟨q, hq, he⟩ := h
      have := setValue_dataType _ _ q hq
      simp only [Prod.mk.injEq] at he
      rw [← he.1, this]
      exact ih
  | step op a b ha h ih => exact run_enumerator op a b h ih

theorem getValueInfo_of_enumerator (a : NDAttribute) (pSize : Nat)
    (h : NDAttrInt8 ≤ a.dataType_ ∧ a.dataType_ ≤ NDAttrUndefined) :
    (a.getValueInfo pSize).1 = ND_SUCCESS ∧ (a.getValueInfo pSize).2.1 = a.dataType_ := by
  rcases enumerator_cases a.dataType_ h.1 h.2 with
    h | h | h | h | h | h | h | h | h | h | h | h | h | h | h | h | h | h | h | h | h | h
  all_goals simp only [NDAttribute.getValueInfo, h]
  all_goals simp

/-- C19: getValueInfo always succeeds. In every attribute state reachable from the constructor or
the copy constructor by any sequence of public operations, the stored data type is one of the 22
enumerators of NDAttrDataType_t, so getValueInfo returns ND_SUCCESS and the kind it reports
equals getDataType(). -/
theorem getValueInfo_always_succeeds (a : NDAttribute) (h : Reachable a) (pSize : Nat) :
    (NDAttrInt8 ≤ a.dataType_ ∧ a.dataType_ ≤ NDAttrUndefined) ∧
    (a.getValueInfo pSize).1 = ND_SUCCESS ∧
    (a.getValueInfo pSize).2.1 = a.getDataType.1 :=
  ⟨reachable_enumerator a h, getValueInfo_of_enumerator a pSize (reachable_enumerator a h)⟩

/-- Instance of C19: an attribute constructed as a String holding "abc", then asked for a
different type. -/
theorem getValueInfo_always_succeeds_witness :
    (NDAttrInt8 ≤ stringAttr.dataType_ ∧ stringAttr.dataType_ ≤ NDAttrUndefined) ∧
    (stringAttr.getValueInfo 0).1 = ND_SUCCESS ∧
    (stringAttr.getValueInfo 0).2.1 = stringAttr.getDataType.1 :=
  getValueInfo_always_succeeds stringAttr
    (Reachable.step (Op.setDataType NDAttrInt32) stringAttr stringAttr
      (Reachable.construct (some "Gain") (some "Detector gain") NDAttrSourceParam (some "GAIN")
        NDAttrString (some (Pointee.chars "abc")) stringAttr rfl)
      rfl)
    0

/-! ## Storing a string twice -/

/-- C20: string store is idempotent. For every String attribute and every string x, setValue(x)
followed by setValue(x) again returns ND_SUCCESS both times and the state after the second call
equals the state after the first, for the raw-pointer overload and for the std::string overload
alike; the stored string is then x (for the raw pointer, the C string at x: x up to its first
zero byte, which is x when x has none). -/
theorem string_store_idempotent (a : NDAttribute) (x : String) (h : a.dataType_ = NDAttrString) :
    (∃ a1, a.setValue (some (Pointee.chars x)) = some (ND_SUCCESS, a1) ∧
      a1.setValue (some (Pointee.chars x)) = some (ND_SUCCESS, a1) ∧
      a1.string_ = cstr x ∧
      ((∀ ch ∈ x.data, ch ≠ Char.ofNat 0) → a1.string_ = x)) ∧
    (∃ a1, a.setValue_string x = (ND_SUCCESS, a1) ∧
      a1.setValue_string x = (ND_SUCCESS, a1) ∧
      a1.string_ = x) := by
  constructor
  · exact ⟨{ a with string_ := cstr x }, setValue_string_kind a x h,
      setValue_string_kind { a with string_ := cstr x } x h, rfl, fun hz => cstr_eq_self x hz⟩
  · refine ⟨{ a with string_ := x }, ?_, ?_, rfl⟩
    · simp only [NDAttribute.setValue_string, h, if_true]
    · simp only [NDAttribute.setValue_string, h, if_true]

/-- Instance of C20 on a String attribute holding "abc", storing "x" twice. -/
theorem string_store_idempotent_witness :
    (∃ a1, stringAttr.setValue (some (Pointee.chars "x")) = some (ND_SUCCESS, a1) ∧
      a1.setValue (some (Pointee.chars "x")) = some (ND_SUCCESS, a1) ∧
      a1.string_ = cstr "x" ∧
      ((∀ ch ∈ "x".data, ch ≠ Char.ofNat 0) → a1.string_ = "x")) ∧
    (∃ a1, stringAttr.setValue_string "x" = (ND_SUCCESS, a1) ∧
      a1.setValue_string "x" = (ND_SUCCESS, a1) ∧
      a1.string_ = "x") :=
  string_store_idempotent stringAttr "x" (by decide)

/-! ## Source type and label -/

theorem construct_init_sourceInfo (pName pDescription : Option String)
    (sourceType : NDAttrSource_t) (pSource : Option String) :
    ((NDAttribute.construct_init pName pDescription sourceType pSource).sourceType_,
      (NDAttribute.construct_init pName pDescription sourceType pSource).sourceTypeString_)
      = specSourceInfo sourceType := by
  simp only [NDAttribute.construct_init, specSourceInfo, NDAttrSourceDriver_eq,
    NDAttrSourceParam_eq, NDAttrSourceEPICSPV_eq, NDAttrSourceFunct_eq, NDAttrSourceConst_eq,
    NDAttrSourceUndefined_eq]
  by_cases h0 : sourceType = 0
  · simp [h0]
  by_cases h1 : sourceType = 1
  · simp [h1]
  by_cases h2 : sourceType = 2
  · simp [h2]
  by_cases h3 : sourceType = 3
  · simp [h3]
  by_cases h4 : sourceType = 4
  · simp [h4]
  simp [h0, h1, h2, h3, h4]

theorem specSourceInfo_idem (sourceType : NDAttrSource_t) :
    specSourceInfo (specSourceInfo sourceType).1 = specSourceInfo sourceType := by
  simp only [specSourceInfo, NDAttrSourceDriver_eq,
    NDAttrSourceParam_eq, NDAttrSourceEPICSPV_eq, NDAttrSourceFunct_eq, NDAttrSourceConst_eq,
    NDAttrSourceUndefined_eq]
  by_cases h0 : sourceType = 0
  · simp [h0]
  by_cases h1 : sourceType = 1
  · simp [h1]
  by_cases h2 : sourceType = 2
  · simp [h2]
  by_cases h3 : sourceType = 3
  · simp [h3]
  by_cases h4 : sourceType = 4
  · simp [h4]
  simp [h0, h1, h2, h3, h4]

theorem setDataType_identity (a : NDAttribute) (type : NDAttrDataType_t) :
    sameIdentity (a.setDataType type).2 a := by
  unfold NDAttribute.setDataType
  split_ifs <;> exact ⟨rfl, rfl, rfl, rfl, rfl⟩

theorem setValue_string_identity (a : NDAttribute) (value : String) :
    sameIdentity (a.setValue_string value).2 a := by
  unfold NDAttribute.setValue_string
  split_ifs <;> exact ⟨rfl, rfl, rfl, rfl, rfl⟩

theorem setValue_vector_identity (T : epicsType) (a : NDAttribute) (value : List Int) :
    sameIdentity (NDAttribute.setValue_vector T a value).2 a := by
  rw [setValue_vector_eq]
  split_ifs <;> exact ⟨rfl, rfl, rfl, rfl, rfl⟩

theorem sameIdentity_refl (a : NDAttribute) : sameIdentity a a := ⟨rfl, rfl, rfl, rfl, rfl⟩

theorem run_identity (op : Op) (a b : NDAttribute) (h : op.run a = some b) :
    sameIdentity b a := by
  cases op with
  | setDataType type =>
      simp only [Op.run, Option.some.injEq] at h
      subst h; exact setDataType_identity a type
  | setValue pValue =>
      simp only [Op.run, Option.map_eq_some'] at h
      obtain ⟨r, hr, rfl⟩ := h
      exact setValue_identity a pValue r hr
  | setValue_string value =>
      simp only [Op.run, Option.some.injEq] at h
      subst h; exact setValue_string_identity a value
  | setValue_vector T value =>
      simp only [Op.run, Option.some.injEq] at h
      subst h; exact setValue_vector_identity T a value
  | getName => cases h; exact sameIdentity_refl a
  | getDataType => cases h; exact sameIdentity_refl a
  | getDescription => cases h; exact sameIdentity_refl a
  | getSource => cases h; exact sameIdentity_refl a
  | getSourceInfo => cases h; exact sameIdentity_refl a
  | getValueInfo pSize =>
      simp only [Op.run, Option.some.injEq] at h
      subst h; rw [getValueInfo_state]; exact sameIdentity_refl a
  | getValue dataType pValue dataSize =>
      simp only [Op.run, Option.map_eq_some'] at h
      obtain ⟨r, hr, rfl⟩ := h
      rw [getValue_state a dataType pValue dataSize r hr]; exact sameIdentity_refl a
  | getValue_string value =>
      simp only [Op.run, Option.some.injEq] at h
      subst h; rw [getValue_string_state]; exact sameIdentity_refl a
  | getValue_vector T value =>
      simp only [Op.run, Option.some.injEq] at h
      subst h; rw [getValue_vector_state]; exact sameIdentity_refl a
  | updateValue => cases h; exact sameIdentity_refl a
  | copy pOut =>
      simp only [Op.run, Option.map_eq_some'] at h
      obtain ⟨r, hr, rfl⟩ := h
      rw [copy_source_state a pOut r hr]; exact sameIdentity_refl a
  | copyTarget other =>
      simp only [Op.run, Option.map_eq_some'] at h
      obtain ⟨r, hr, rfl⟩ := h
      simp only [NDAttribute.copy, Option.map_eq_some'] at hr
      obtain ⟨q, hq, rfl⟩ := hr
      exact setValue_identity a _ q hq

theorem construct_identity (pName pDescription : Option String) (sourceType : NDAttrSource_t)
    (pSource : Option String) (dataType : NDAttrDataType_t) (pValue : VoidPtr) (a : NDAttribute)
    (h : NDAttribute.construct pName pDescription sourceType pSource dataType pValue = some a) :
    sameIdentity a (NDAttribute.construct_init pName pDescription sourceType pSource) := by
  simp only [NDAttribute.construct] at h
  split_ifs at h with hp
  · simp only [Option.map_eq_some'] at h
    obtain ⟨r, hr, rfl⟩ := h
    have h1 := setValue_identity _ _ r hr
    have h2 := setDataType_identity
      (NDAttribute.construct_init pName pDescription sourceType pSource) dataType
    exact ⟨h1.1.trans h2.1, h1.2.1.trans h2.2.1, h1.2.2.1.trans h2.2.2.1,
      h1.2.2.2.1.trans h2.2.2.2.1, h1.2.2.2.2.trans h2.2.2.2.2⟩
  · simp only [Option.some.injEq] at h
    subst h; exact sameIdentity_refl _

theorem copyConstruct_identity (other c r : NDAttribute)
    (h : NDAttribute.copyConstruct other = some (c, r)) : sameIdentity c other ∧ r = other := by
  simp only [NDAttribute.copyConstruct, Option.map_eq_some'] at h
  obtain ⟨q, hq, he⟩ := h
  simp only [Prod.mk.injEq] at he
  have h1 := setValue_identity _ _ q hq
  rw [he.1] at h1
  exact ⟨h1, he.2.symm⟩

theorem reachable_sourceInfo (a : NDAttribute) (h : Reachable a) :
    (a.sourceType_, a.sourceTypeString_) = specSourceInfo a.sourceType_ := by
  induction h with
  | construct pName pDescription sourceType pSource dataType pValue a h =>
      have hid := construct_identity pName pDescription sourceType pSource dataType pValue a h
      have hi := construct_init_sourceInfo pName pDescription sourceType pSource
      rw [hid.2.2.2.1, hid.2.2.2.2, hi]
      have : (NDAttribute.construct_init pName pDescription sourceType pSource).sourceType_
          = (specSourceInfo sourceType).1 := by rw [← hi]
      rw [this, specSourceInfo_idem]
  | copyConstruct other a r ho h ih =>
      have hid := (copyConstruct_identity other a r h).1
      rw [hid.2.2.2.1, hid.2.2.2.2]; exact ih
  | step op a b ha h ih =>
      have hid := run_identity op a b h
      rw [hid.2.2.2.1, hid.2.2.2.2]; exact ih

/-- C21: source kind normalisation and label. For every sourceType value passed to the
constructor, getSourceInfo on the constructed attribute returns the pair (Driver,
"NDAttrSourceDriver"), (Param, "NDAttrSourceParam"), (EPICSPV, "NDAttrSourceEPICSPV"), (Funct,
"NDAttrSourceFunct") or (Const, "NDAttrSourceConst") when sourceType is that one of the five
known kinds, and (NDAttrSourceUndefined, "Undefined") for every other value; the source type and
label are left as they are by every public operation and by copying, so every reachable
attribute carries such a pair. -/
theorem source_info_normalised :
    (∀ (pName pDescription : Option String) (sourceType : NDAttrSource_t)
        (pSource : Option String) (dataType : NDAttrDataType_t) (pValue : VoidPtr)
        (a : NDAttribute),
      NDAttribute.construct pName pDescription sourceType pSource dataType pValue = some a →
      (a.getSourceInfo.2.1, a.getSourceInfo.1) = specSourceInfo sourceType) ∧
    (∀ (pName pDescription : Option String) (sourceType : NDAttrSource_t)
        (pSource : Option String) (dataType : NDAttrDataType_t),
      ∃ a, NDAttribute.construct pName pDescription sourceType pSource dataType none = some a) ∧
    (∀ (op : Op) (a b : NDAttribute), op.run a = some b →
      (b.getSourceInfo.2.1, b.getSourceInfo.1) = (a.getSourceInfo.2.1, a.getSourceInfo.1)) ∧
    (∀ other c r : NDAttribute, NDAttribute.copyConstruct other = some (c, r) →
      (c.getSourceInfo.2.1, c.getSourceInfo.1)
        = (other.getSourceInfo.2.1, other.getSourceInfo.1)) ∧
    (∀ a : NDAttribute, Reachable a →
      (a.getSourceInfo.2.1, a.getSourceInfo.1) = specSourceInfo a.sourceType_) := by
  refine ⟨?_, ?_, ?_, ?_, ?_⟩
  · intro pName pDescription sourceType pSource dataType pValue a h
    have hid := construct_identity pName pDescription sourceType pSource dataType pValue a h
    have hi := construct_init_sourceInfo pName pDescription sourceType pSource
    simp only [NDAttribute.getSourceInfo]
    rw [hid.2.2.2.1, hid.2.2.2.2, hi]
  · intro pName pDescription sourceType pSource dataType
    exact ⟨NDAttribute.construct_init pName pDescription sourceType pSource,
      by simp [NDAttribute.construct]⟩
  · intro op a b h
    have hid := run_identity op a b h
    simp only [NDAttribute.getSourceInfo]
    rw [hid.2.2.2.1, hid.2.2.2.2]
  · intro other c r h
    have hid := (copyConstruct_identity other c r h).1
    simp only [NDAttribute.getSourceInfo]
    rw [hid.2.2.2.1, hid.2.2.2.2]
  · intro a h
    exact reachable_sourceInfo a h

/-- Instance of C21: a constructor call with source type 99 and with source type
NDAttrSourceEPICSPV. -/
theorem source_info_normalised_witness :
    ((untyped.getSourceInfo.2.1, untyped.getSourceInfo.1) = specSourceInfo NDAttrSourceParam) ∧
    ∃ a, NDAttribute.construct (some "Gain") none 99 none NDAttrInt32 none = some a ∧
      (a.getSourceInfo.2.1, a.getSourceInfo.1) = (NDAttrSourceUndefined, "Undefined") :=
  ⟨source_info_normalised.1 (some "Gain") (some "Detector gain") NDAttrSourceParam (some "GAIN")
      NDAttrInt32 none untyped rfl,
   _, rfl, source_info_normalised.1 (some "Gain") none 99 none NDAttrInt32 none _ rfl⟩

/-! ## Short source names -/

/-- C22: short-form source names. attrSourceString returns "DRIVER", "PARAM", "EPICS_PV",
"FUNCTION", "CONST" for NDAttrSourceDriver, NDAttrSourceParam, NDAttrSourceEPICSPV,
NDAttrSourceFunct, NDAttrSourceConst, the lookup being the table entry at the integer value of
the enumerator; the table has exactly five entries, so the index of NDAttrSourceUndefined (5)
lies outside it, and the lookup is in bounds iff the argument is one of the five known kinds. -/
theorem attrSourceString_table :
    attrSourceString NDAttrSourceDriver = some "DRIVER" ∧
    attrSourceString NDAttrSourceParam = some "PARAM" ∧
    attrSourceString NDAttrSourceEPICSPV = some "EPICS_PV" ∧
    attrSourceString NDAttrSourceFunct = some "FUNCTION" ∧
    attrSourceString NDAttrSourceConst = some "CONST" ∧
    (∀ type : NDAttrSource_t,
      attrSourceString type = if 0 ≤ type then NDAttrSourceStrings[type.toNat]? else none) ∧
    NDAttrSourceStrings.length = 5 ∧
    NDAttrSourceUndefined = 5 ∧
    attrSourceString NDAttrSourceUndefined = none ∧
    (∀ type : NDAttrSource_t,
      (attrSourceString type).isSome = true ↔
        (type = NDAttrSourceDriver ∨ type = NDAttrSourceParam ∨ type = NDAttrSourceEPICSPV ∨
          type = NDAttrSourceFunct ∨ type = NDAttrSourceConst)) := by
  refine ⟨rfl, rfl, rfl, rfl, rfl, fun _ => rfl, rfl, rfl, rfl, fun type => ?_⟩
  simp only [NDAttrSourceDriver_eq, NDAttrSourceParam_eq, NDAttrSourceEPICSPV_eq,
    NDAttrSourceFunct_eq, NDAttrSourceConst_eq]
  have key : ∀ t : Int, (attrSourceString t).isSome = true ↔
      (t = 0 ∨ t = 1 ∨ t = 2 ∨ t = 3 ∨ t = 4) := by
    intro t
    unfold attrSourceString
    split_ifs with h0
    · have hlen : NDAttrSourceStrings.length = 5 := rfl
      rw [Option.isSome_iff_exists]
      constructor
      · rintro ⟨s, hs⟩
        obtain ⟨hlt, -⟩ := List.getElem?_eq_some.mp hs
        rw [hlen] at hlt
        have h0' : (0 : Int) ≤ t := h0
        omega
      · intro ht
        have hlt : t.toNat < NDAttrSourceStrings.length := by omega
        exact ⟨_, List.getElem?_eq_getElem hlt⟩
    · simp only [Option.isSome_none, Bool.false_eq_true, false_iff]
      rintro (h | h | h | h | h) <;> (subst h; exact h0 (by decide))
  exact key type

/-! ## Enumeration order -/

theorem exists_scalarKind_iff (k : Int) :
    (∃ T : epicsType, k = scalarKind T) ↔ (0 ≤ k ∧ k ≤ 9) := by
  constructor
  · rintro ⟨T, rfl⟩
    cases T <;> simp [scalarKind]
  · rintro ⟨h0, h9⟩
    have : k = 0 ∨ k = 1 ∨ k = 2 ∨ k = 3 ∨ k = 4 ∨ k = 5 ∨ k = 6 ∨ k = 7 ∨ k = 8 ∨ k = 9 := by
      omega
    rcases this with h | h | h | h | h | h | h | h | h | h
    · exact ⟨.Int8, h⟩
    · exact ⟨.UInt8, h⟩
    · exact ⟨.Int16, h⟩
    · exact ⟨.UInt16, h⟩
    · exact ⟨.Int32, h⟩
    · exact ⟨.UInt32, h⟩
    · exact ⟨.Int64, h⟩
    · exact ⟨.UInt64, h⟩
    · exact ⟨.Float32, h⟩
    · exact ⟨.Float64, h⟩

theorem exists_vectorKind_iff (k : Int) :
    (∃ T : epicsType, k = vectorKind T) ↔ (11 ≤ k ∧ k ≤ 20) := by
  constructor
  · rintro ⟨T, rfl⟩
    cases T <;> simp [vectorKind]
  · rintro ⟨h0, h9⟩
    have : k = 11 ∨ k = 12 ∨ k = 13 ∨ k = 14 ∨ k = 15 ∨ k = 16 ∨ k = 17 ∨ k = 18 ∨ k = 19 ∨
        k = 20 := by omega
    rcases this with h | h | h | h | h | h | h | h | h | h
    · exact ⟨.Int8, h⟩
    · exact ⟨.UInt8, h⟩
    · exact ⟨.Int16, h⟩
    · exact ⟨.UInt16, h⟩
    · exact ⟨.Int32, h⟩
    · exact ⟨.UInt32, h⟩
    · exact ⟨.Int64, h⟩
    · exact ⟨.UInt64, h⟩
    · exact ⟨.Float32, h⟩
    · exact ⟨.Float64, h⟩

/-- Every integer used as a data type is a scalar kind, String, a vector kind, or none of the
kinds that carry a payload. -/
theorem kind_classes (k : Int) :
    (∃ T : epicsType, k = scalarKind T) ∨ k = NDAttrString ∨ (∃ T : epicsType, k = vectorKind T) ∨
      ¬ (0 ≤ k ∧ k ≤ 20) := by
  rw [exists_scalarKind_iff, exists_vectorKind_iff, NDAttrString_eq]
  omega

/-- C23: enumeration order. The integer values of NDAttrDataType_t are 0..9 for Int8, UInt8,
Int16, UInt16, Int32, UInt32, Int64, UInt64, Float32, Float64, then 10 for String, 11..20 for
VecInt8..VecFloat64 in the same element order, and 21 for Undefined; hence a kind k is a scalar
numeric kind iff NDAttrInt8 ≤ k ≤ NDAttrFloat64, and is a kind that carries a payload (scalar,
String or vector) iff NDAttrInt8 ≤ k ≤ NDAttrVecFloat64. -/
theorem enumeration_order :
    [NDAttrInt8, NDAttrUInt8, NDAttrInt16, NDAttrUInt16, NDAttrInt32, NDAttrUInt32, NDAttrInt64,
      NDAttrUInt64, NDAttrFloat32, NDAttrFloat64] = [0, 1, 2, 3, 4, 5, 6, 7, 8, 9] ∧
    NDAttrString = 10 ∧
    [NDAttrVecInt8, NDAttrVecUInt8, NDAttrVecInt16, NDAttrVecUInt16, NDAttrVecInt32,
      NDAttrVecUInt32, NDAttrVecInt64, NDAttrVecUInt64, NDAttrVecFloat32, NDAttrVecFloat64]
      = [11, 12, 13, 14, 15, 16, 17, 18, 19, 20] ∧
    NDAttrUndefined = 21 ∧
    (∀ k : NDAttrDataType_t,
      (∃ T : epicsType, k = scalarKind T) ↔ (NDAttrInt8 ≤ k ∧ k ≤ NDAttrFloat64)) ∧
    (∀ k : NDAttrDataType_t,
      ((∃ T : epicsType, k = scalarKind T) ∨ k = NDAttrString ∨
          (∃ T : epicsType, k = vectorKind T)) ↔
        (NDAttrInt8 ≤ k ∧ k ≤ NDAttrVecFloat64)) := by
  have hp : ∀ k : Int, ((∃ T : epicsType, k = scalarKind T) ∨ k = 10 ∨
      (∃ T : epicsType, k = vectorKind T)) ↔ (0 ≤ k ∧ k ≤ 20) := by
    intro k
    rw [exists_scalarKind_iff, exists_vectorKind_iff]
    omega
  exact ⟨rfl, rfl, rfl, rfl, fun k => exists_scalarKind_iff k, fun k => hp k⟩

/-! ## Construction -/

theorem construct_init_names (pName pDescription : Option String) (sourceType : NDAttrSource_t)
    (pSource : Option String) :
    (NDAttribute.construct_init pName pDescription sourceType pSource).name_
        = (match pName with | some s => cstr s | none => "") ∧
    (NDAttribute.construct_init pName pDescription sourceType pSource).description_
        = (match pDescription with | some s => cstr s | none => "") ∧
    (NDAttribute.construct_init pName pDescription sourceType pSource).source_
        = (match pSource with | some s => cstr s | none => "") := by
  unfold NDAttribute.construct_init
  split_ifs <;> exact ⟨rfl, rfl, rfl⟩

theorem setDataType_of_undefined_dataType (a : NDAttribute) (K : Int)
    (h : a.dataType_ = NDAttrUndefined) :
    (a.setDataType K).2.dataType_
      = if NDAttrInt8 ≤ K ∧ K ≤ NDAttrVecFloat64 then K else NDAttrUndefined := by
  simp only [NDAttrUndefined_eq] at h
  simp only [NDAttribute.setDataType, h, NDAttrInt8_eq, NDAttrVecFloat64_eq, NDAttrUndefined_eq]
  by_cases h1 : K = 21
  · subst h1; simp [h]
  · by_cases h2 : K < 0 ∨ 20 < K
    · have h3 : ¬ (0 ≤ K ∧ K ≤ 20) := by omega
      simp [h1, h2, h3, h]
    · have h3 : 0 ≤ K ∧ K ≤ 20 := by omega
      simp [h1, h2, h3]

/-- C24: type fixed at construction. For every name, description, source and every (dataType,
pValue) passed to the constructor, the data type of the constructed attribute is dataType when
pValue is non-null and dataType lies in Int8..VecFloat64, and is Undefined otherwise; when
dataType is String and pValue points to the C string s, getValue(std::string&) on the new
attribute returns ND_SUCCESS with s; a null name, description or source pointer yields the
empty string for that field. The constructor call is defined for a null pValue, for a dataType
outside Int8..VecFloat64, and for a String with a pointer to characters. -/
theorem construct_fixes_type (pName pDescription pSource : Option String)
    (sourceType : NDAttrSource_t) (dataType : NDAttrDataType_t) (pValue : VoidPtr) :
    (∀ a, NDAttribute.construct pName pDescription sourceType pSource dataType pValue = some a →
      a.dataType_ = (if pValue ≠ none ∧ NDAttrInt8 ≤ dataType ∧ dataType ≤ NDAttrVecFloat64
        then dataType else NDAttrUndefined) ∧
      (pName = none → a.name_ = "") ∧
      (pDescription = none → a.description_ = "") ∧
      (pSource = none → a.source_ = "")) ∧
    (pValue = none →
      ∃ a, NDAttribute.construct pName pDescription sourceType pSource dataType pValue
        = some a) ∧
    ((dataType < NDAttrInt8 ∨ NDAttrVecFloat64 < dataType) →
      ∃ a, NDAttribute.construct pName pDescription sourceType pSource dataType pValue
        = some a) ∧
    (∀ (s out : String), dataType = NDAttrString → pValue = some (Pointee.chars s) →
      ∃ a, NDAttribute.construct pName pDescription sourceType pSource dataType pValue
          = some a ∧
        a.getValue_string out = (ND_SUCCESS, cstr s, a) ∧
        ((∀ ch ∈ s.data, ch ≠ Char.ofNat 0) → a.getValue_string out = (ND_SUCCESS, s, a))) := by
  have hi := construct_init_dataType pName pDescription sourceType pSource
  have hn := construct_init_names pName pDescription sourceType pSource
  refine ⟨fun a h => ⟨?_, ?_, ?_, ?_⟩, fun hp => ?_, fun hr => ?_, fun s out hd hp => ?_⟩
  · simp only [NDAttribute.construct] at h
    split_ifs at h with hp
    · simp only [Option.map_eq_some'] at h
      obtain ⟨r, hr, rfl⟩ := h
      rw [setValue_dataType _ _ r hr, setDataType_of_undefined_dataType _ _ hi]
      simp [hp]
    · simp only [Option.some.injEq] at h
      subst h
      simp only [ne_eq] at hp
      simp [hp, hi]
  · intro hnull
    have hid := construct_identity pName pDescription sourceType pSource dataType pValue a h
    rw [hid.1, hn.1, hnull]
  · intro hnull
    have hid := construct_identity pName pDescription sourceType pSource dataType pValue a h
    rw [hid.2.1, hn.2.1, hnull]
  · intro hnull
    have hid := construct_identity pName pDescription sourceType pSource dataType pValue a h
    rw [hid.2.2.1, hn.2.2, hnull]
  · subst hp
    exact ⟨NDAttribute.construct_init pName pDescription sourceType pSource,
      by simp [NDAttribute.construct]⟩
  · cases pValue with
    | none =>
        exact ⟨NDAttribute.construct_init pName pDescription sourceType pSource,
          by simp [NDAttribute.construct]⟩
    | some p =>
        have hd : (NDAttribute.setDataType
            (NDAttribute.construct_init pName pDescription sourceType pSource)
            dataType).2.dataType_ = NDAttrUndefined := by
          rw [setDataType_of_undefined_dataType _ _ hi]
          have : ¬ (NDAttrInt8 ≤ dataType ∧ dataType ≤ NDAttrVecFloat64) := by
            rintro ⟨h1, h2⟩
            rcases hr with h | h
            · exact absurd h1 (not_le.mpr h)
            · exact absurd h2 (not_le.mpr h)
          rw [if_neg this]
        simp only [NDAttribute.construct, ne_eq, reduceCtorEq, not_false_eq_true, if_true]
        rw [setValue_of_undefined _ _ hd]
        exact ⟨_, rfl⟩
  · subst hd hp
    have hd : (NDAttribute.setDataType
        (NDAttribute.construct_init pName pDescription sourceType pSource)
        NDAttrString).2.dataType_ = NDAttrString := by
      rw [setDataType_of_undefined_dataType _ _ hi]
      rfl
    simp only [NDAttribute.construct, ne_eq, reduceCtorEq, not_false_eq_true, if_true]
    rw [setValue_string_kind _ s hd]
    refine ⟨_, rfl, ?_, fun hz => ?_⟩
    · simp only [NDAttribute.getValue_string, Option.map_some']
      rw [if_pos hd]
    · simp only [NDAttribute.getValue_string, Option.map_some']
      rw [if_pos hd, cstr_eq_self s hz]

/-- Instance of C24: a String attribute constructed from a pointer to "abc" with a null
description. -/
theorem construct_fixes_type_witness :
    ∃ a, NDAttribute.construct (some "Gain") none NDAttrSourceParam (some "GAIN") NDAttrString
          (some (Pointee.chars "abc")) = some a ∧
      a.getValue_string "" = (ND_SUCCESS, cstr "abc", a) ∧
      ((∀ ch ∈ "abc".data, ch ≠ Char.ofNat 0) → a.getValue_string "" = (ND_SUCCESS, "abc", a)) :=
  (construct_fixes_type (some "Gain") none (some "GAIN") NDAttrSourceParam NDAttrString
    (some (Pointee.chars "abc"))).2.2.2 "abc" "" rfl rfl

/-! ## Success of the generic getter -/

theorem getValue_of_ne (a : NDAttribute) (R : NDAttrDataType_t) (out : Buffer) (n : Nat)
    (h : R ≠ a.dataType_) : a.getValue R out n = some (ND_ERROR, out, a) := by
  have h2 : a.dataType_ ≠ R := fun e => h e.symm
  simp only [NDAttribute.getValue, if_pos h2]

theorem castScalar_same_isSome (K : epicsType) (v : Int) : ∃ w, castScalar K K v = some w := by
  cases K <;> simp [castScalar, epicsType.isFloat]

theorem getValue_dispatch_scalar (T : epicsType) (a : NDAttribute) (b : Buffer) (n : Nat) :
    a.getValue_dispatch (scalarKind T) b n = a.getValueT T b n := by
  cases T <;> simp [NDAttribute.getValue_dispatch, scalarKind]

theorem getValue_dispatch_not_scalar (a : NDAttribute) (dt : Int) (b : Buffer) (n : Nat)
    (h : ¬ (0 ≤ dt ∧ dt ≤ 9)) : a.getValue_dispatch dt b n = some (ND_ERROR, b, a) := by
  have h0 : ¬ dt = 0 := by omega
  have h1 : ¬ dt = 1 := by omega
  have h2 : ¬ dt = 2 := by omega
  have h3 : ¬ dt = 3 := by omega
  have h4 : ¬ dt = 4 := by omega
  have h5 : ¬ dt = 5 := by omega
  have h6 : ¬ dt = 6 := by omega
  have h7 : ¬ dt = 7 := by omega
  have h8 : ¬ dt = 8 := by omega
  have h9 : ¬ dt = 9 := by omega
  simp [NDAttribute.getValue_dispatch, h0, h1, h2, h3, h4, h5, h6, h7, h8, h9]

theorem getValueT_scalar (K : epicsType) (a : NDAttribute) (b : Buffer) (n : Nat)
    (h : a.dataType_ = scalarKind K) :
    a.getValueT K b n
      = ((a.value_.read K).bind (castScalar K K)).map
          fun v => (ND_SUCCESS, Buffer.scalar K v, a) := by
  cases K <;> simp only [scalarKind] at h <;> simp only [NDAttribute.getValueT, h] <;>
    simp [NDAttrValue.read]

theorem getValue_scalar_eq (K : epicsType) (a : NDAttribute) (out : Buffer) (n : Nat)
    (h : a.dataType_ = scalarKind K) :
    a.getValue (scalarKind K) out n
      = ((a.value_.read K).bind (castScalar K K)).map
          fun v => (ND_SUCCESS, Buffer.scalar K v, a) := by
  rw [← getValueT_scalar K a out n h, ← getValue_dispatch_scalar K a out n]
  cases K <;> simp only [scalarKind] at h ⊢ <;> simp only [NDAttribute.getValue, h] <;> simp

theorem getValue_vector_kind_eq (T : epicsType) (a : NDAttribute) (out : Buffer) (n : Nat)
    (h : a.dataType_ = vectorKind T) :
    a.getValue (vectorKind T) out n
      = (memcpy T (a.vector_.get T)
          (if n = 0 then (a.vector_.get T).length * T.sizeof else n)).bind
          fun b => some (ND_ERROR, b, a) := by
  have hd : ∀ (b : Buffer) (m : Nat),
      a.getValue_dispatch (vectorKind T) b m = some (ND_ERROR, b, a) := by
    intro b m
    apply getValue_dispatch_not_scalar
    cases T <;> simp [vectorKind]
  cases T <;> simp only [vectorKind] at h hd ⊢ <;> simp only [NDAttribute.getValue, h] <;>
    simp at hd <;> simp [hd, NDAttrVecValue.get]

theorem getValue_no_payload_kind (a : NDAttribute) (out : Buffer) (n : Nat)
    (h : ¬ ((0 : Int) ≤ a.dataType_ ∧ a.dataType_ ≤ 20)) :
    a.getValue a.dataType_ out n = some (ND_ERROR, out, a) := by
  have hd : ∀ (b : Buffer) (m : Nat),
      a.getValue_dispatch a.dataType_ b m = some (ND_ERROR, b, a) := by
    intro b m
    apply getValue_dispatch_not_scalar
    rintro ⟨h0, h9⟩
    exact h ⟨h0, le_trans h9 (by decide)⟩
  rcases dataType_cases a.dataType_ with
    h1 | h1 | h1 | h1 | h1 | h1 | h1 | h1 | h1 | h1 | h1 | h1 | h1 | h1 | h1 | h1 | h1 | h1 |
      h1 | h1 | h1 | h1 | h1
  all_goals first
    | (exfalso; apply h; rw [h1]; decide)
    | (have hd2 := hd out n
       simp only [NDAttribute.getValue, h1]
       simp only [ND_ERROR_eq] at hd2
       simp [hd2])

/-- C25: exact success condition of the generic getter. For every attribute state, every
requested kind R and every dataSize, a result of getValue(R, out, dataSize) is ND_SUCCESS if and
only if R equals the stored data type and that type is one of the ten scalar kinds or String,
and is ND_ERROR otherwise; whenever R differs from the stored data type the call returns
ND_ERROR without writing to the output buffer, and the state of the attribute is never changed
by the call. The call returns (with ND_SUCCESS) for every String attribute and for every scalar
attribute whose value has been stored. -/
theorem getValue_success_condition (a : NDAttribute) (R : NDAttrDataType_t) (out : Buffer)
    (dataSize : Nat) :
    (R ≠ a.dataType_ → a.getValue R out dataSize = some (ND_ERROR, out, a)) ∧
    (∀ r, a.getValue R out dataSize = some r →
      r.2.2 = a ∧ (r.1 = ND_SUCCESS ∨ r.1 = ND_ERROR) ∧
      (r.1 = ND_SUCCESS ↔
        (R = a.dataType_ ∧
          ((∃ T : epicsType, a.dataType_ = scalarKind T) ∨ a.dataType_ = NDAttrString)))) ∧
    (R = a.dataType_ → a.dataType_ = NDAttrString →
      ∃ w, a.getValue R out dataSize = some (ND_SUCCESS, w, a)) ∧
    (∀ (K : epicsType) (v : Int), R = a.dataType_ → a.dataType_ = scalarKind K →
      a.value_.read K = some v →
      ∃ w, a.getValue R out dataSize = some (ND_SUCCESS, w, a)) := by
  have hne : ND_SUCCESS ≠ ND_ERROR := by decide
  refine ⟨getValue_of_ne a R out dataSize, fun r hr => ⟨getValue_state a R out dataSize r hr, ?_⟩,
    fun hR hS => ?_, fun K v hR hK hv => ?_⟩
  · by_cases hR : R = a.dataType_
    · subst hR
      rcases kind_classes a.dataType_ with ⟨K, hK⟩ | hS | ⟨T, hT⟩ | hN
      · have hr2 := hr
        conv at hr2 => lhs; rw [hK]
        rw [getValue_scalar_eq K a out dataSize hK, Option.map_eq_some'] at hr2
        obtain ⟨w, -, rfl⟩ := hr2
        exact ⟨Or.inl rfl, fun _ => ⟨rfl, Or.inl ⟨K, hK⟩⟩, fun _ => rfl⟩
      · have hr2 := hr
        conv at hr2 => lhs; rw [hS]
        rw [getValue_string_eq a out dataSize hS] at hr2
        cases hr2
        exact ⟨Or.inl rfl, fun _ => ⟨rfl, Or.inr hS⟩, fun _ => rfl⟩
      · have hr2 := hr
        conv at hr2 => lhs; rw [hT]
        rw [getValue_vector_kind_eq T a out dataSize hT, Option.bind_eq_some] at hr2
        obtain ⟨b, -, hb⟩ := hr2
        cases hb
        refine ⟨Or.inr rfl, fun h => absurd h hne.symm, ?_⟩
        rintro ⟨-, ⟨K, hK⟩ | hS⟩
        · rw [hT] at hK
          cases T <;> cases K <;> simp [vectorKind, scalarKind] at hK
        · rw [hT] at hS
          cases T <;> simp [vectorKind] at hS
      · rw [getValue_no_payload_kind a out dataSize hN] at hr
        cases hr
        refine ⟨Or.inr rfl, fun h => absurd h hne.symm, ?_⟩
        rintro ⟨-, ⟨K, hK⟩ | hS⟩
        · exfalso
          apply hN
          rw [hK]
          cases K <;> simp [scalarKind]
        · exfalso
          apply hN
          rw [hS]
          decide
    · rw [getValue_of_ne a R out dataSize hR] at hr
      cases hr
      exact ⟨Or.inr rfl, fun h => absurd h hne.symm, fun h => absurd h.1 hR⟩
  · subst hR
    conv => enter [1, w, 1]; rw [hS]
    exact ⟨_, getValue_string_eq a out dataSize hS⟩
  · subst hR
    obtain ⟨w, hw⟩ := castScalar_same_isSome K v
    refine ⟨Buffer.scalar K w, ?_⟩
    conv => lhs; rw [hK]
    rw [getValue_scalar_eq K a out dataSize hK, hv]
    simp [hw]

/-- Instance of C25: an Int32 attribute holding 300 read as Int32 succeeds, and read as Float64
fails without writing. -/
theorem getValue_success_condition_witness :
    (∃ w, int32Attr.getValue NDAttrInt32 (Buffer.chars []) 0 = some (ND_SUCCESS, w, int32Attr)) ∧
    int32Attr.getValue NDAttrFloat64 (Buffer.chars []) 0
      = some (ND_ERROR, Buffer.chars [], int32Attr) :=
  ⟨(getValue_success_condition int32Attr NDAttrInt32 (Buffer.chars []) 0).2.2.2
      epicsType.Int32 300 rfl rfl rfl,
   (getValue_success_condition int32Attr NDAttrFloat64 (Buffer.chars []) 0).1 (by decide)⟩

/-! ## Null value on a typed attribute -/

/-- C26: null value on a typed attribute. For every attribute whose data type is not Undefined
(scalar, String or vector), setValue(pValue) with a null pointer returns ND_ERROR and leaves
every field of the attribute, including the previously stored payload, unchanged. -/
theorem setValue_null_on_typed (a : NDAttribute) (h : a.dataType_ ≠ NDAttrUndefined) :
    a.setValue none = some (ND_ERROR, a) := by
  unfold NDAttribute.setValue
  rw [if_pos ⟨h, rfl⟩]

/-- Instance of C26 on a VecInt8 attribute holding three elements. -/
theorem setValue_null_on_typed_witness :
    vecInt8Attr.setValue none = some (ND_ERROR, vecInt8Attr) :=
  setValue_null_on_typed vecInt8Attr (by decide)

/-! ## The raw-pointer setter and the typed setters -/

/-- C27: the raw-pointer setter agrees with the typed setters. For every String attribute and
every string s without a zero byte, setValue((const void*) s as a C string) and
setValue(std::string s) return the same status and produce the same attribute state; and for
every vector kind, every attribute of that kind and every sequence w, setValue((const void*)
pointer to w) and the typed setValue(w) return the same status and produce the same attribute
state. -/
theorem raw_setter_agrees_with_typed (a : NDAttribute) :
    (∀ s : String, a.dataType_ = NDAttrString → (∀ ch ∈ s.data, ch ≠ Char.ofNat 0) →
      a.setValue (some (Pointee.chars s)) = some (a.setValue_string s)) ∧
    (∀ (T : epicsType) (w : List Int), a.dataType_ = vectorKind T →
      a.setValue (some (Pointee.vector T w)) = some (NDAttribute.setValue_vector T a w)) := by
  constructor
  · intro s hS hz
    rw [setValue_string_kind a s hS, cstr_eq_self s hz]
    simp only [NDAttribute.setValue_string, if_pos hS]
  · intro T w hT
    rw [setValue_vector_eq, if_pos hT]
    cases T <;> simp only [vectorKind] at hT <;> simp only [NDAttribute.setValue, hT] <;>
      simp [derefVector, NDAttrVecValue.set]

/-- Instance of C27: "xyz" stored in a String attribute and three elements stored in a VecInt8
attribute, each through both setters. -/
theorem raw_setter_agrees_with_typed_witness :
    stringAttr.setValue (some (Pointee.chars "xyz")) = some (stringAttr.setValue_string "xyz") ∧
    vecInt8Attr.setValue (some (Pointee.vector epicsType.Int8 [4, 5, 6]))
      = some (NDAttribute.setValue_vector epicsType.Int8 vecInt8Attr [4, 5, 6]) :=
  ⟨(raw_setter_agrees_with_typed stringAttr).1 "xyz" rfl (by decide),
   (raw_setter_agrees_with_typed vecInt8Attr).2 epicsType.Int8 [4, 5, 6] rfl⟩

end NDAttr
